import Mathlib

/-!
Connection lifecycle manager of `db/mongodb/models.go`.

A shallow embedding of the package-level `client` state, its guarded accessors,
the dialer, the health probe, the monitor loop started by `Connect`, the
facade (`Connect`, `Disconnect`, `GetClient`) and the CRUD helpers.

Modelling conventions.

* The mutex is not modelled: every function is run to completion (or until it
  blocks) on a sequential world.  While a getter spins in
  `waitForDisconnecting` it holds the lock, so nobody else can clear
  `isDisconnecting`; the spin is therefore modelled with a fuel counter and the
  result `Res.blocked` when the fuel runs out.
* Everything observable outside the state (driver calls, sleeps, log lines,
  channel sends, goroutine starts) is appended to a trace of `Event`s.
* Outcomes of the driver (dial, ping, driver disconnect, URI parsing, CRUD
  results) are parameters of the functions that call it.
* A nil-pointer dereference is the result `Res.panicked`.
* A channel send is recorded as `Event.signal` when the statement is reached: the
  receiving side is taken to be ready (the channel of `main.go` is received from right
  after `Connect`).
-/

namespace MongoDB

/-- A non-nil `*mongo.Client`. The field `c` of the state is `Option Handle`. -/
abbrev Handle := Nat

/-- The error values that the package distinguishes. -/
inductive GoError where
  | ErrNoMongoConnection
  | ErrClientDisconnected
  | ErrNoDocuments
  | ErrNotExactlyOne
  | other (code : Nat)
  deriving DecidableEq, Repr

/-- Log levels used by the package. -/
inductive LogLevel where
  | info
  | warn
  | error
  deriving DecidableEq, Repr

/-- Effects visible outside the connection state. -/
inductive Event where
  | sleep (seconds : Nat)
  | dial (uri : String)
  | ping (h : Handle)
  | driverDisconnect (h : Handle)
  | driverOp (op : String) (h : Handle)
  | log (level : LogLevel) (msg : String)
  | signal (ch : Nat)
  | spawnMonitor (uri : String) (dbSigChan : Option Nat)
  | spawnNotifier (dbSigChan : Option Nat)
  deriving DecidableEq, Repr

/-- The struct `mongoclient` (the embedded `sync.RWMutex` is not modelled). -/
structure mongoclient where
  c : Option Handle
  isConnected : Bool
  isDisconnecting : Bool
  shouldDisconnect : Bool
  isMonitoringConnection : Bool
  deriving DecidableEq, Repr

/-- The package variable `client` at process start. -/
def client : mongoclient :=
  { c := none
    isConnected := false
    isDisconnecting := false
    shouldDisconnect := false
    isMonitoringConnection := false }

/-- The sequential world: the package state and the trace of effects so far. -/
structure World where
  client : mongoclient
  trace : List Event
  deriving DecidableEq, Repr

/-- The world at process start. -/
def World.init : World := { client := MongoDB.client, trace := [] }

/-- How a call ends: it returns, it never returns (spins forever), or it panics. -/
inductive Res (α : Type) where
  | ok (a : α)
  | blocked
  | panicked
  deriving DecidableEq, Repr

/-- A Go function body: from a world to its result and the world it leaves. -/
def Prog (α : Type) : Type := World → Res α × World

/-- Return a value without touching the world. -/
def Prog.pure {α : Type} (a : α) : Prog α := fun w => (Res.ok a, w)

/-- Sequencing: a blocked or panicked prefix ends the whole body. -/
def Prog.bind {α β : Type} (m : Prog α) (f : α → Prog β) : Prog β := fun w =>
  match m w with
  | (Res.ok a, w1) => f a w1
  | (Res.blocked, w1) => (Res.blocked, w1)
  | (Res.panicked, w1) => (Res.panicked, w1)

instance : Monad Prog where
  pure := Prog.pure
  bind := Prog.bind

/-- Append one effect to the trace. -/
def emit (e : Event) : Prog Unit := fun w =>
  (Res.ok (), { w with trace := w.trace ++ [e] })

/-- Read the package state. -/
def readClient : Prog mongoclient := fun w => (Res.ok w.client, w)

/-- Update the package state. -/
def writeClient (f : mongoclient → mongoclient) : Prog Unit := fun w =>
  (Res.ok (), { w with client := f w.client })

/-- A wait that ran out of fuel. -/
def block {α : Type} : Prog α := fun w => (Res.blocked, w)

/-- A nil-pointer dereference. -/
def nilDeref {α : Type} : Prog α := fun w => (Res.panicked, w)

/-! ## Guarded accessors (models.go 30-96) -/

/-- Source: `_getIsDisconnecting`. -/
def _getIsDisconnecting : Prog Bool := do
  let mc ← readClient
  pure mc.isDisconnecting

/-- Source: `waitForDisconnecting`: `for mc._getIsDisconnecting() { sleep 1s }; return true`. -/
def waitForDisconnecting : Nat → Prog Bool
  | 0 => block
  | fuel + 1 => do
    if (← _getIsDisconnecting) then
      emit (Event.sleep 1)
      waitForDisconnecting fuel
    else
      pure true

/-- Source: `getIsConnected`: `mc.waitForDisconnecting() && mc.isConnected`. -/
def getIsConnected (fuel : Nat) : Prog Bool := do
  let waited ← waitForDisconnecting fuel
  let mc ← readClient
  pure (waited && mc.isConnected)

/-- Source: `setIsConnected`. -/
def setIsConnected (fuel : Nat) (conn : Bool) : Prog Unit := do
  if (← getIsConnected fuel) != conn then
    writeClient fun mc => { mc with isConnected := conn }
    if conn then
      writeClient fun mc => { mc with isDisconnecting := false }

/-- Source: `getIsMonitoringConnection`. -/
def getIsMonitoringConnection (fuel : Nat) : Prog Bool := do
  let waited ← waitForDisconnecting fuel
  let mc ← readClient
  pure (waited && mc.isMonitoringConnection)

/-- Source: `setIsMonitoringConnection`. -/
def setIsMonitoringConnection (fuel : Nat) (monitoring : Bool) : Prog Unit := do
  if (← getIsMonitoringConnection fuel) != monitoring then
    writeClient fun mc => { mc with isMonitoringConnection := monitoring }

/-- Source: `getShouldDisconnect`. -/
def getShouldDisconnect (fuel : Nat) : Prog Bool := do
  let waited ← waitForDisconnecting fuel
  let mc ← readClient
  pure (waited && mc.shouldDisconnect)

/-- Source: `setShouldDisconnect`. -/
def setShouldDisconnect (fuel : Nat) (disconn : Bool) : Prog Unit := do
  if (← getShouldDisconnect fuel) != disconn then
    writeClient fun mc => { mc with shouldDisconnect := disconn }

/-- Source: `getClient`: returns `mc.c` without waiting. -/
def getClient : Prog (Option Handle) := do
  let mc ← readClient
  pure mc.c

/-- Source: `setClient`. -/
def setClient (c : Option Handle) : Prog Unit :=
  writeClient fun mc => { mc with c := c }

/-! ## Teardown, dialer, probe (models.go 98-122, 198-216) -/

/-- Source: `disconnect`; `derr` is what the driver's `Disconnect` returns. -/
def disconnect (derr : Option GoError) : Prog (Option GoError) := do
  writeClient fun mc => { mc with isDisconnecting := true }
  let mc ← readClient
  let err ← (match mc.c with
    | some h => do
      emit (Event.driverDisconnect h)
      match derr with
      | some e =>
        if e = GoError.ErrClientDisconnected then
          emit (Event.log LogLevel.warn "Mongo client already disconnected")
        else
          emit (Event.log LogLevel.error "error in disconnect")
      | none => pure ()
      writeClient fun mc => { mc with c := none }
      pure derr
    | none => pure none)
  writeClient fun mc => { mc with isConnected := false }
  writeClient fun mc => { mc with isDisconnecting := false }
  pure err

/-- Source: `markForDisconnect`. -/
def markForDisconnect (fuel : Nat) : Prog Unit := do
  setShouldDisconnect fuel true
  emit (Event.log LogLevel.warn "mongo connection marked for disconnection")

/-- Source: `ping`: `client.c.Ping(...)`, a method call through `client.c`;
`pingErr` is what the driver's `Ping` returns. -/
def ping (pingErr : Option GoError) : Prog (Option GoError) := do
  let mc ← readClient
  match mc.c with
  | none => nilDeref
  | some h =>
    emit (Event.ping h)
    pure pingErr

/-- Source: `connect`; `dialed` is what `mongo.Connect` returns. -/
def connect (fuel : Nat) (connectionURI : String) (dialed : Except GoError Handle) :
    Prog (Option GoError) := do
  if !(← getIsConnected fuel) then
    emit (Event.dial connectionURI)
    match dialed with
    | Except.error err =>
      setIsConnected fuel false
      return some err
    | Except.ok c =>
      setClient (some c)
  return none

/-! ## Facade (models.go 132-235) -/

/-- Source: `Disconnect`. -/
def Disconnect (fuel : Nat) : Prog (Option GoError) := do
  if !(← getIsConnected fuel) then
    return some GoError.ErrNoMongoConnection
  markForDisconnect fuel
  return none

/-- Source: `GetClient`. -/
def GetClient (fuel : Nat) : Prog (Option Handle × Option GoError) := do
  if !(← getIsConnected fuel) then
    return (none, some GoError.ErrNoMongoConnection)
  return (← getClient, none)

/-- Source: the join path's `for !client.getIsConnected() { sleep 1s }` (models.go 185-187);
`spins` bounds the iterations of this loop, `fuel` those of the getter's wait. -/
def awaitConnected (fuel : Nat) : Nat → Prog Unit
  | 0 => block
  | spins + 1 => do
    if !(← getIsConnected fuel) then
      emit (Event.sleep 1)
      awaitConnected fuel spins
    else
      pure ()

/-- Source: `Connect`, the caller's synchronous path. The two `go func()` statements are
recorded as `spawnMonitor` and `spawnNotifier`; their bodies are `monitorLoop`
and `joinNotifier` below. -/
def Connect (fuel : Nat) (connectionURI : String) (dbSigChan : Option Nat) :
    Prog (Option GoError) := do
  setShouldDisconnect fuel false
  if !(← getIsMonitoringConnection fuel) then
    emit (Event.spawnMonitor connectionURI dbSigChan)
    setIsMonitoringConnection fuel true
  else
    awaitConnected fuel fuel
    emit (Event.spawnNotifier dbSigChan)
  return none

/-- Source: the goroutine of the join path (models.go 188-193); returns `notified`. -/
def joinNotifier (dbSigChan : Option Nat) (notified : Bool) : Prog Bool :=
  match dbSigChan with
  | some ch =>
    if !notified then do
      emit (Event.signal ch)
      pure true
    else
      pure notified
  | none => pure notified

/-! ## Monitor loop (models.go 139-182) -/

/-- What the driver answers during one monitor cycle. -/
structure CycleEnv where
  /-- Result of `mongo.Connect`. -/
  dialed : Except GoError Handle
  /-- Result of `Ping`. -/
  pingErr : Option GoError
  /-- Result of the driver's `Disconnect`. -/
  discErr : Option GoError
  /-- Result of `connstring.ParseAndValidate`: the hosts, or an error. -/
  parsed : Except GoError (List String)

/-- Source: the host loop (models.go 160-166): the hosts joined by commas. -/
def hostsStr : List String → String
  | [] => ""
  | [h] => h
  | h :: rest => h ++ "," ++ hostsStr rest

/-- Source: the probe-success branch (models.go 155-173); returns `notified`. -/
def probeSucceeded (fuel : Nat) (dbSigChan : Option Nat) (env : CycleEnv)
    (isConnectedOld notified : Bool) : Prog Bool := do
  setIsConnected fuel true
  if isConnectedOld != (← getIsConnected fuel) then
    match env.parsed with
    | Except.ok hosts =>
      emit (Event.log LogLevel.info ("Connected to mongo at " ++ hostsStr hosts))
      match dbSigChan with
      | some ch =>
        if !notified then
          emit (Event.signal ch)
          return true
        else
          return notified
      | none => return notified
    | Except.error _ => return notified
  else
    return notified

/-- Source: the probe-failure branch (models.go 147-153). -/
def probeFailed (fuel : Nat) (env : CycleEnv) (isConnectedOld : Bool) : Prog Unit := do
  emit (Event.log LogLevel.warn "ping error")
  let _ ← disconnect env.discErr
  if isConnectedOld != (← getIsConnected fuel) then
    emit (Event.log LogLevel.error "cannot create mongo session")

/-- Source: the first half of a cycle (models.go 141-144): remember the old
connectivity and dial when not connected. Returns `isConnectedOld`. -/
def cycleDial (fuel : Nat) (connectionURI : String) (env : CycleEnv) : Prog Bool := do
  let isConnectedOld ← getIsConnected fuel
  if !(← getIsConnected fuel) then
    let _ ← connect fuel connectionURI env.dialed
  pure isConnectedOld

/-- Source: the second half of a cycle (models.go 145-178): probe when a handle
exists, otherwise mark not connected; then sleep. Returns `notified`. -/
def cycleProbe (fuel : Nat) (dbSigChan : Option Nat) (env : CycleEnv)
    (isConnectedOld notified : Bool) : Prog Bool := do
  let n ← (do
    if (← getClient) != none then
      match (← ping env.pingErr) with
      | some _ =>
        probeFailed fuel env isConnectedOld
        pure notified
      | none => probeSucceeded fuel dbSigChan env isConnectedOld notified
    else
      setIsConnected fuel false
      pure notified)
  emit (Event.sleep 5)
  pure n

/-- Source: the body of the monitor loop (models.go 141-178); returns `notified`. -/
def monitorCycle (fuel : Nat) (connectionURI : String) (dbSigChan : Option Nat)
    (env : CycleEnv) (notified : Bool) : Prog Bool := do
  let isConnectedOld ← cycleDial fuel connectionURI env
  cycleProbe fuel dbSigChan env isConnectedOld notified

/-- Where the monitor goroutine is: still looping (with its `notified`), or returned. -/
inductive LoopState where
  | running (notified : Bool)
  | stopped
  deriving DecidableEq, Repr

/-- Source: one evaluation of the loop head `for !client.getShouldDisconnect()`
(models.go 140) followed by the body, or by the exit code (models.go 180-181). -/
def monitorIter (fuel : Nat) (connectionURI : String) (dbSigChan : Option Nat)
    (env : CycleEnv) (notified : Bool) : Prog LoopState := do
  if !(← getShouldDisconnect fuel) then
    let n ← monitorCycle fuel connectionURI dbSigChan env notified
    pure (LoopState.running n)
  else
    let _ ← disconnect env.discErr
    setIsMonitoringConnection fuel false
    pure LoopState.stopped

/-- Calls made by other goroutines between two iterations of the monitor loop. -/
inductive FacadeCall where
  | Disconnect
  | GetClient
  deriving DecidableEq, Repr

/-- Run one facade call for its effect on the world. -/
def FacadeCall.run (fuel : Nat) : FacadeCall → Prog Unit
  | FacadeCall.Disconnect => do
    let _ ← MongoDB.Disconnect fuel
    pure ()
  | FacadeCall.GetClient => do
    let _ ← MongoDB.GetClient fuel
    pure ()

/-- Run a list of facade calls in order. -/
def runCalls (fuel : Nat) : List FacadeCall → Prog Unit
  | [] => pure ()
  | call :: rest => do
    call.run fuel
    runCalls fuel rest

/-- One turn of a run: calls of other goroutines, then one loop iteration. -/
structure Turn where
  calls : List FacadeCall
  env : CycleEnv

/-- Source: the monitor goroutine (models.go 139-182) over a finite schedule:
the loop runs one iteration per turn until it returns. -/
def monitorLoop (fuel : Nat) (connectionURI : String) (dbSigChan : Option Nat) :
    List Turn → LoopState → Prog LoopState
  | [], st => pure st
  | _ :: _, LoopState.stopped => pure LoopState.stopped
  | turn :: rest, LoopState.running notified => do
    runCalls fuel turn.calls
    let st ← monitorIter fuel connectionURI dbSigChan turn.env notified
    monitorLoop fuel connectionURI dbSigChan rest st

/-! ## CRUD helpers (models.go 266-517)

Documents, filters and results are natural numbers; `m` is the pair of the
database name and the collection name; the last parameter of each helper is
what the driver call answers. -/

/-- Source: `client.getClient().Database(..).Collection(..)` followed by one driver
call `op` on that collection: a nil handle is dereferenced. -/
def onCollection (op : String) : Prog Unit := do
  match (← getClient) with
  | none => nilDeref
  | some h => emit (Event.driverOp op h)

/-- Source: `FindOne`; `decodeErr` is the error of `result.Decode(i)`. -/
def FindOne (fuel : Nat) (m : String × String) (query : Nat) (decodeErr : Option GoError) :
    Prog (Bool × Option GoError) := do
  if !(← getIsConnected fuel) then
    return (false, some GoError.ErrNoMongoConnection)
  onCollection ("FindOne " ++ m.1 ++ "." ++ m.2 ++ " " ++ toString query)
  match decodeErr with
  | some err =>
    if err ≠ GoError.ErrNoDocuments then
      return (false, some err)
    else
      return (false, none)
  | none => return (true, none)

/-- Source: `FindOneWithModel`. -/
def FindOneWithModel (fuel : Nat) (m : String × String) (i : Nat) (d : Nat)
    (decodeErr : Option GoError) : Prog (Nat × Bool × Option GoError) := do
  if !(← getIsConnected fuel) then
    return (i, false, some GoError.ErrNoMongoConnection)
  onCollection ("FindOne " ++ m.1 ++ "." ++ m.2 ++ " " ++ toString d)
  match decodeErr with
  | some err =>
    if err ≠ GoError.ErrNoDocuments then
      return (i, false, some err)
    else
      return (i, false, none)
  | none => return (i, true, none)

/-- Source: the shape shared by `UpdateOne`, `UpdateMany`, `AddToArray` and
`UpdateWithUnsetKey` after the connectivity check: one driver call, its error
or its result. -/
def updateWith (op : String) (m : String × String) (filter update : Nat)
    (res : Except GoError Nat) : Prog (Option Nat × Option GoError) := do
  onCollection (op ++ " " ++ m.1 ++ "." ++ m.2 ++ " " ++ toString filter ++ " " ++ toString update)
  match res with
  | Except.error err => return (none, some err)
  | Except.ok result => return (some result, none)

/-- Source: `UpdateOne` (update wrapped in `$set`). -/
def UpdateOne (fuel : Nat) (m : String × String) (filter update : Nat)
    (res : Except GoError Nat) : Prog (Option Nat × Option GoError) := do
  if !(← getIsConnected fuel) then
    return (none, some GoError.ErrNoMongoConnection)
  updateWith "UpdateOne $set" m filter update res

/-- Source: `UpdateMany` (update wrapped in `$set`). -/
def UpdateMany (fuel : Nat) (m : String × String) (filter update : Nat)
    (res : Except GoError Nat) : Prog (Option Nat × Option GoError) := do
  if !(← getIsConnected fuel) then
    return (none, some GoError.ErrNoMongoConnection)
  updateWith "UpdateMany $set" m filter update res

/-- Source: `AddToArray` (update wrapped in `$addToSet`). -/
def AddToArray (fuel : Nat) (m : String × String) (filter update : Nat)
    (res : Except GoError Nat) : Prog (Option Nat × Option GoError) := do
  if !(← getIsConnected fuel) then
    return (none, some GoError.ErrNoMongoConnection)
  updateWith "UpdateOne $addToSet" m filter update res

/-- Source: `UpdateWithUnsetKey` (update passed as is). -/
def UpdateWithUnsetKey (fuel : Nat) (m : String × String) (filter update : Nat)
    (res : Except GoError Nat) : Prog (Option Nat × Option GoError) := do
  if !(← getIsConnected fuel) then
    return (none, some GoError.ErrNoMongoConnection)
  updateWith "UpdateOne" m filter update res

/-- Source: `DeleteOne`; `res` is the driver's error or its `DeletedCount`. -/
def DeleteOne (fuel : Nat) (m : String × String) (d : Nat) (res : Except GoError Nat) :
    Prog (Option GoError) := do
  if !(← getIsConnected fuel) then
    return some GoError.ErrNoMongoConnection
  onCollection ("DeleteOne " ++ m.1 ++ "." ++ m.2 ++ " " ++ toString d)
  match res with
  | Except.error err => return some err
  | Except.ok deletedCount =>
    if deletedCount = 1 then
      return none
    else
      return some GoError.ErrNotExactlyOne

/-- Source: `DeleteMany`. -/
def DeleteMany (fuel : Nat) (m : String × String) (d : Nat) (res : Except GoError Nat) :
    Prog (Option GoError) := do
  if !(← getIsConnected fuel) then
    return some GoError.ErrNoMongoConnection
  onCollection ("DeleteMany " ++ m.1 ++ "." ++ m.2 ++ " " ++ toString d)
  match res with
  | Except.error err => return some err
  | Except.ok deletedCount =>
    emit (Event.log LogLevel.info ("deleted the documents " ++ toString deletedCount))
    return none

/-- Source: `DeleteAll`; `dropErr` is the error of `c.Drop`. -/
def DeleteAll (fuel : Nat) (m : String × String) (dropErr : Option GoError) :
    Prog (Option GoError) := do
  if !(← getIsConnected fuel) then
    return some GoError.ErrNoMongoConnection
  onCollection ("Drop " ++ m.1 ++ "." ++ m.2)
  match dropErr with
  | some err => return some err
  | none => return none

/-- Source: `InsertOne`; `res` is the driver's error or the inserted id. -/
def InsertOne (fuel : Nat) (m : String × String) (i : Nat) (res : Except GoError Nat) :
    Prog (Option Nat × Option GoError) := do
  if !(← getIsConnected fuel) then
    return (none, some GoError.ErrNoMongoConnection)
  onCollection ("InsertOne " ++ m.1 ++ "." ++ m.2 ++ " " ++ toString i)
  match res with
  | Except.error err => return (none, some err)
  | Except.ok insertedID => return (some insertedID, none)

/-- Source: `InsertMany`. -/
def InsertMany (fuel : Nat) (m : String × String) (docs : List Nat)
    (res : Except GoError (List Nat)) : Prog (Option (List Nat) × Option GoError) := do
  if !(← getIsConnected fuel) then
    return (none, some GoError.ErrNoMongoConnection)
  onCollection ("InsertMany " ++ m.1 ++ "." ++ m.2 ++ " " ++ toString docs)
  match res with
  | Except.error err => return (none, some err)
  | Except.ok insertedIDs => return (some insertedIDs, none)

/-- Source: `CountDocuments`; `res` is the pair the driver returns. -/
def CountDocuments (fuel : Nat) (m : String × String) (filter : Nat)
    (res : Nat × Option GoError) : Prog (Nat × Option GoError) := do
  if !(← getIsConnected fuel) then
    return (0, some GoError.ErrNoMongoConnection)
  onCollection ("CountDocuments " ++ m.1 ++ "." ++ m.2 ++ " " ++ toString filter)
  match res.2 with
  | some err =>
    if err ≠ GoError.ErrNoDocuments then
      return (0, some err)
    else
      return (0, none)
  | none => return (res.1, none)

/-- Source: the tail shared by `Find`, `Aggregate` and `Distinct`: an error other
than `ErrNoDocuments` is returned, otherwise the driver's value. -/
def keepUnlessError {α : Type} (res : Option α × Option GoError) : Option α × Option GoError :=
  match res.2 with
  | some err => if err ≠ GoError.ErrNoDocuments then (none, some err) else (res.1, none)
  | none => (res.1, none)

/-- Source: `Find`; `res` is the cursor and the error the driver returns. -/
def Find (fuel : Nat) (m : String × String) (filter : Nat) (res : Option Nat × Option GoError) :
    Prog (Option Nat × Option GoError) := do
  if !(← getIsConnected fuel) then
    return (none, some GoError.ErrNoMongoConnection)
  onCollection ("Find " ++ m.1 ++ "." ++ m.2 ++ " " ++ toString filter)
  return keepUnlessError res

/-- Source: `Aggregate`: reads `client.isConnected` and `client.c` directly, with
neither the lock nor the wait. -/
def Aggregate (m : String × String) (d : Nat) (res : Option Nat × Option GoError) :
    Prog (Option Nat × Option GoError) := do
  let mc ← readClient
  if !mc.isConnected then
    return (none, some GoError.ErrNoMongoConnection)
  match mc.c with
  | none => nilDeref
  | some h =>
    emit (Event.driverOp ("Aggregate " ++ m.1 ++ "." ++ m.2 ++ " " ++ toString d) h)
    return keepUnlessError res

/-- Source: `Distinct`. -/
def Distinct (fuel : Nat) (m : String × String) (field : String) (filter : Nat)
    (res : Option (List Nat) × Option GoError) :
    Prog (Option (List Nat) × Option GoError) := do
  if !(← getIsConnected fuel) then
    return (none, some GoError.ErrNoMongoConnection)
  onCollection ("Distinct " ++ m.1 ++ "." ++ m.2 ++ " " ++ field ++ " " ++ toString filter)
  return keepUnlessError res

/-! ## Helper definitions for the statements -/

/-- The log line `disconnect` writes for the driver's answer. -/
def disconnectLog : Option GoError → List Event
  | none => []
  | some e =>
    if e = GoError.ErrClientDisconnected then
      [Event.log LogLevel.warn "Mongo client already disconnected"]
    else
      [Event.log LogLevel.error "error in disconnect"]

/-- The effects of `disconnect` on a state whose handle is `c`. -/
def disconnectTrace (derr : Option GoError) : Option Handle → List Event
  | some h => Event.driverDisconnect h :: disconnectLog derr
  | none => []

/-- The state `disconnect` leaves. -/
def tornDown (mc : mongoclient) : mongoclient :=
  { mc with c := none, isConnected := false, isDisconnecting := false }

/-- Number of sends on channel `ch` recorded in a trace. -/
def signalsOn (ch : Nat) (trace : List Event) : Nat :=
  trace.count (Event.signal ch)

/-- Number of monitor goroutines started, as recorded in a trace. -/
def monitorsStarted (trace : List Event) : Nat :=
  trace.countP fun e =>
    match e with
    | Event.spawnMonitor _ _ => true
    | _ => false

/-- The state the monitor cycle leaves after its dialing half. -/
def afterDial (env : CycleEnv) (mc : mongoclient) : mongoclient :=
  if mc.isConnected then mc
  else
    match env.dialed with
    | Except.ok h => { mc with c := some h }
    | Except.error _ => mc

/-- The state the monitor cycle leaves after its probing half. -/
def afterProbe (env : CycleEnv) (mc : mongoclient) : mongoclient :=
  match mc.c with
  | none => { mc with isConnected := false }
  | some _ =>
    match env.pingErr with
    | none => { mc with isConnected := true }
    | some _ => tornDown mc

/-- A state in which a teardown is in progress and nothing is connected. -/
def tearingDown : World :=
  { client := { MongoDB.client with isDisconnecting := true }, trace := [] }

/-- A connected state with handle `7` and a running monitor. -/
def connectedWorld : World :=
  { client := { MongoDB.client with c := some 7, isConnected := true, isMonitoringConnection := true }
    trace := [] }

/-- A schedule in which no other goroutine calls the facade: one loop iteration per
driver answer. -/
def quietTurns (envs : List CycleEnv) : List Turn :=
  envs.map fun env => { calls := [], env := env }

/-- Driver answers of a cycle in which the dial (handle `7`) and the probe succeed but
`connstring.ParseAndValidate` rejects the URI. -/
def parseFails : CycleEnv :=
  { dialed := Except.ok 7, pingErr := none, discErr := none
    parsed := Except.error (GoError.other 1) }

/-- Driver answers of a cycle in which everything succeeds (handle `7`, one host). -/
def healthy : CycleEnv :=
  { dialed := Except.ok 7, pingErr := none, discErr := none, parsed := Except.ok ["db"] }

/-- Driver answers of a cycle whose probe fails. -/
def probeDown : CycleEnv :=
  { dialed := Except.ok 7, pingErr := some (GoError.other 2), discErr := none
    parsed := Except.ok ["db"] }

/-- The world after the first `Connect "srv"` of the process with channel `0`. -/
def afterFirstConnect : World :=
  { client := { MongoDB.client with isMonitoringConnection := true }
    trace := [Event.spawnMonitor "srv" (some 0)] }

/-- The operations of the core, with the driver answers they meet. The monitor cycle
appears as its two halves and as a whole loop iteration (body or exit). -/
inductive CoreOp where
  | Connect (uri : String) (dbSigChan : Option Nat)
  | Disconnect
  | GetClient
  | dial (uri : String) (dialed : Except GoError Handle)
  | teardown (derr : Option GoError)
  | cycleDial (uri : String) (env : CycleEnv)
  | cycleProbe (dbSigChan : Option Nat) (env : CycleEnv) (isConnectedOld notified : Bool)
  | iterate (uri : String) (dbSigChan : Option Nat) (env : CycleEnv) (notified : Bool)

/-- The world an operation leaves (also when it blocks part-way). -/
def CoreOp.exec (fuel : Nat) : CoreOp → World → World
  | CoreOp.Connect uri ch, w => (MongoDB.Connect fuel uri ch w).2
  | CoreOp.Disconnect, w => (MongoDB.Disconnect fuel w).2
  | CoreOp.GetClient, w => (MongoDB.GetClient fuel w).2
  | CoreOp.dial uri dialed, w => (connect fuel uri dialed w).2
  | CoreOp.teardown derr, w => (disconnect derr w).2
  | CoreOp.cycleDial uri env, w => (MongoDB.cycleDial fuel uri env w).2
  | CoreOp.cycleProbe ch env old n, w => (MongoDB.cycleProbe fuel ch env old n w).2
  | CoreOp.iterate uri ch env n, w => (monitorIter fuel uri ch env n w).2

/-- The worlds the core can be in: from process start by any operations. -/
inductive Reachable : World → Prop where
  | start : Reachable World.init
  | step (fuel : Nat) (op : CoreOp) (w : World) : Reachable w → Reachable (op.exec fuel w)

/-- Whether an operation is a `Connect` call (the only one that clears
`shouldDisconnect`). -/
def CoreOp.isConnect : CoreOp → Bool
  | CoreOp.Connect _ _ => true
  | _ => false

/-- Run operations in order, each with its own fuel. -/
def runOps : List (Nat × CoreOp) → World → World
  | [], w => w
  | (fuel, op) :: rest, w => runOps rest (op.exec fuel w)

/-- The invariant of C8: connected only with a handle. -/
def HandleInv (mc : mongoclient) : Prop :=
  mc.isConnected = true → mc.c ≠ none

/-- The worlds in which a monitor cycle can start: from process start by facade calls
and whole loop iterations (body or exit). -/
inductive AtCycleStart : World → Prop where
  | start : AtCycleStart World.init
  | connectCall (fuel : Nat) (uri : String) (ch : Option Nat) (w : World) :
      AtCycleStart w → AtCycleStart (MongoDB.Connect fuel uri ch w).2
  | disconnectCall (fuel : Nat) (w : World) :
      AtCycleStart w → AtCycleStart (MongoDB.Disconnect fuel w).2
  | getClientCall (fuel : Nat) (w : World) :
      AtCycleStart w → AtCycleStart (MongoDB.GetClient fuel w).2
  | iteration (fuel : Nat) (uri : String) (ch : Option Nat) (env : CycleEnv) (n : Bool)
      (w : World) : AtCycleStart w → AtCycleStart (monitorIter fuel uri ch env n w).2

/-- A run of monitor cycles: the loop body once per driver answer. -/
def runCycles (fuel : Nat) (connectionURI : String) (dbSigChan : Option Nat) :
    List CycleEnv → Bool → Prog Bool
  | [], notified => pure notified
  | env :: rest, notified => do
    let n ← monitorCycle fuel connectionURI dbSigChan env notified
    runCycles fuel connectionURI dbSigChan rest n

/-- The dial of a cycle fails. -/
def CycleEnv.dialFails (env : CycleEnv) : Bool :=
  match env.dialed with
  | Except.error _ => true
  | Except.ok _ => false

/-- The probe of a cycle fails. -/
def CycleEnv.probeFails (env : CycleEnv) : Bool :=
  env.pingErr.isSome

/-- What holds of the state whenever a monitor cycle starts: no teardown is in
progress, and a state that is not connected holds no handle. -/
def Settled (mc : mongoclient) : Prop :=
  mc.isDisconnecting = false ∧ (mc.isConnected = false → mc.c = none)

/-- The state after a failed cycle: not connected, no handle, no teardown in progress. -/
def Idle (mc : mongoclient) : Prop :=
  mc.isDisconnecting = false ∧ mc.isConnected = false ∧ mc.c = none

/-- Source: the states `disconnect` passes through while it holds the write lock
(after models.go 101, 112, 114 and 115), for a state that holds a handle. -/
def disconnectPhases (mc : mongoclient) : List mongoclient :=
  [ { mc with isDisconnecting := true },
    { mc with isDisconnecting := true, c := none },
    { mc with isDisconnecting := true, c := none, isConnected := false },
    { mc with isDisconnecting := false, c := none, isConnected := false } ]

/-- The connected state with handle `7` as `disconnect` has it after line 101: the
teardown has begun, the handle is still stored. -/
def midTeardown : World :=
  { client := { connectedWorld.client with isDisconnecting := true }, trace := [] }

/-- The same teardown after line 112: the handle is gone, `isConnected` is still true. -/
def midTeardownNil : World :=
  { client := { connectedWorld.client with isDisconnecting := true, c := none }, trace := [] }

/-- The handles `ping` was called on, in order, as recorded in a trace. -/
def pingsOf (trace : List Event) : List Handle :=
  trace.filterMap fun e =>
    match e with
    | Event.ping h => some h
    | _ => none

/-- The accessors of the state and `markForDisconnect`, as operations of their own. -/
inductive AccessorOp where
  | getIsConnected
  | setIsConnected (conn : Bool)
  | getIsMonitoringConnection
  | setIsMonitoringConnection (monitoring : Bool)
  | getShouldDisconnect
  | setShouldDisconnect (disconn : Bool)
  | getClient
  | setClient (c : Option Handle)
  | markForDisconnect

/-- The world an accessor leaves (also when it blocks). -/
def AccessorOp.exec (fuel : Nat) : AccessorOp → World → World
  | AccessorOp.getIsConnected, w => (MongoDB.getIsConnected fuel w).2
  | AccessorOp.setIsConnected conn, w => (MongoDB.setIsConnected fuel conn w).2
  | AccessorOp.getIsMonitoringConnection, w => (MongoDB.getIsMonitoringConnection fuel w).2
  | AccessorOp.setIsMonitoringConnection b, w => (MongoDB.setIsMonitoringConnection fuel b w).2
  | AccessorOp.getShouldDisconnect, w => (MongoDB.getShouldDisconnect fuel w).2
  | AccessorOp.setShouldDisconnect b, w => (MongoDB.setShouldDisconnect fuel b w).2
  | AccessorOp.getClient, w => (MongoDB.getClient w).2
  | AccessorOp.setClient c, w => (MongoDB.setClient c w).2
  | AccessorOp.markForDisconnect, w => (MongoDB.markForDisconnect fuel w).2

/-- Any completed step of the package on the state: an accessor or an operation of the
core. -/
inductive AnyOp where
  | accessor (a : AccessorOp)
  | core (op : CoreOp)

/-- The world a step leaves. -/
def AnyOp.exec (fuel : Nat) : AnyOp → World → World
  | AnyOp.accessor a, w => a.exec fuel w
  | AnyOp.core op, w => op.exec fuel w

/-- The worlds reachable from process start by any steps, accessors included. -/
inductive ReachableByAny : World → Prop where
  | start : ReachableByAny World.init
  | step (fuel : Nat) (op : AnyOp) (w : World) :
      ReachableByAny w → ReachableByAny (op.exec fuel w)

/-- The world after the first loop iteration of the process with a healthy driver: it is
connected on handle `7`. -/
def afterHealthyIteration : World :=
  (AnyOp.core (CoreOp.iterate "srv" (some 0) healthy false)).exec 1 World.init

/-- Whether an event is a call into the driver. -/
def Event.isDriverCall : Event → Bool
  | Event.dial _ => true
  | Event.ping _ => true
  | Event.driverDisconnect _ => true
  | Event.driverOp _ _ => true
  | _ => false

/-- Number of calls into the driver recorded in a trace. -/
def driverCalls (trace : List Event) : Nat :=
  trace.countP Event.isDriverCall

/-! ## The accessors on a state that is not tearing down, and on one that is -/

theorem waitForDisconnecting_ready (fuel : Nat) (w : World)
    (h : w.client.isDisconnecting = false) :
    waitForDisconnecting (fuel + 1) w = (Res.ok true, w) := by
  simp [waitForDisconnecting, _getIsDisconnecting, readClient, Bind.bind, Prog.bind, Pure.pure,
    Prog.pure, h]

theorem waitForDisconnecting_stuck (fuel : Nat) (w : World)
    (h : w.client.isDisconnecting = true) :
    waitForDisconnecting fuel w
      = (Res.blocked, { w with trace := w.trace ++ List.replicate fuel (Event.sleep 1) }) := by
  induction fuel generalizing w with
  | zero => simp [waitForDisconnecting, block]
  | succ n ih =>
    simp [waitForDisconnecting, _getIsDisconnecting, readClient, Bind.bind, Prog.bind, Pure.pure,
      Prog.pure, h, emit]
    rw [ih { client := w.client, trace := w.trace ++ [Event.sleep 1] } h]
    simp [List.replicate_succ]

theorem waitForDisconnecting_zero (w : World) :
    waitForDisconnecting 0 w = (Res.blocked, w) := rfl

theorem getIsConnected_ready (fuel : Nat) (w : World)
    (h : w.client.isDisconnecting = false) :
    getIsConnected (fuel + 1) w = (Res.ok w.client.isConnected, w) := by
  simp [getIsConnected, waitForDisconnecting_ready fuel w h, readClient, Bind.bind, Prog.bind,
    Pure.pure, Prog.pure]

theorem getIsConnected_stuck (fuel : Nat) (w : World)
    (h : w.client.isDisconnecting = true) :
    getIsConnected fuel w
      = (Res.blocked, { w with trace := w.trace ++ List.replicate fuel (Event.sleep 1) }) := by
  simp [getIsConnected, waitForDisconnecting_stuck fuel w h, Bind.bind, Prog.bind]

theorem getIsConnected_zero (w : World) : getIsConnected 0 w = (Res.blocked, w) := rfl

theorem getIsMonitoringConnection_ready (fuel : Nat) (w : World)
    (h : w.client.isDisconnecting = false) :
    getIsMonitoringConnection (fuel + 1) w = (Res.ok w.client.isMonitoringConnection, w) := by
  simp [getIsMonitoringConnection, waitForDisconnecting_ready fuel w h, readClient, Bind.bind,
    Prog.bind, Pure.pure, Prog.pure]

theorem getIsMonitoringConnection_stuck (fuel : Nat) (w : World)
    (h : w.client.isDisconnecting = true) :
    getIsMonitoringConnection fuel w
      = (Res.blocked, { w with trace := w.trace ++ List.replicate fuel (Event.sleep 1) }) := by
  simp [getIsMonitoringConnection, waitForDisconnecting_stuck fuel w h, Bind.bind, Prog.bind]

theorem getShouldDisconnect_ready (fuel : Nat) (w : World)
    (h : w.client.isDisconnecting = false) :
    getShouldDisconnect (fuel + 1) w = (Res.ok w.client.shouldDisconnect, w) := by
  simp [getShouldDisconnect, waitForDisconnecting_ready fuel w h, readClient, Bind.bind,
    Prog.bind, Pure.pure, Prog.pure]

theorem getShouldDisconnect_stuck (fuel : Nat) (w : World)
    (h : w.client.isDisconnecting = true) :
    getShouldDisconnect fuel w
      = (Res.blocked, { w with trace := w.trace ++ List.replicate fuel (Event.sleep 1) }) := by
  simp [getShouldDisconnect, waitForDisconnecting_stuck fuel w h, Bind.bind, Prog.bind]

theorem getShouldDisconnect_zero (w : World) : getShouldDisconnect 0 w = (Res.blocked, w) := rfl

theorem setIsConnected_ready (fuel : Nat) (conn : Bool) (w : World)
    (h : w.client.isDisconnecting = false) :
    setIsConnected (fuel + 1) conn w
      = (Res.ok (), { w with client := { w.client with isConnected := conn } }) := by
  obtain ⟨⟨c, ic, id, sd, im⟩, tr⟩ := w
  simp only at h
  subst h
  cases ic <;> cases conn <;>
    simp [setIsConnected, getIsConnected_ready, writeClient, Bind.bind, Prog.bind, Pure.pure,
      Prog.pure]

theorem setIsMonitoringConnection_ready (fuel : Nat) (monitoring : Bool) (w : World)
    (h : w.client.isDisconnecting = false) :
    setIsMonitoringConnection (fuel + 1) monitoring w
      = (Res.ok (), { w with client := { w.client with isMonitoringConnection := monitoring } }) := by
  obtain ⟨⟨c, ic, id, sd, im⟩, tr⟩ := w
  simp only at h
  subst h
  cases im <;> cases monitoring <;>
    simp [setIsMonitoringConnection, getIsMonitoringConnection_ready, writeClient, Bind.bind,
      Prog.bind, Pure.pure, Prog.pure]

theorem setShouldDisconnect_ready (fuel : Nat) (disconn : Bool) (w : World)
    (h : w.client.isDisconnecting = false) :
    setShouldDisconnect (fuel + 1) disconn w
      = (Res.ok (), { w with client := { w.client with shouldDisconnect := disconn } }) := by
  obtain ⟨⟨c, ic, id, sd, im⟩, tr⟩ := w
  simp only at h
  subst h
  cases sd <;> cases disconn <;>
    simp [setShouldDisconnect, getShouldDisconnect_ready, writeClient, Bind.bind,
      Prog.bind, Pure.pure, Prog.pure]

theorem setShouldDisconnect_stuck (fuel : Nat) (disconn : Bool) (w : World)
    (h : w.client.isDisconnecting = true) :
    setShouldDisconnect fuel disconn w
      = (Res.blocked, { w with trace := w.trace ++ List.replicate fuel (Event.sleep 1) }) := by
  simp [setShouldDisconnect, getShouldDisconnect_stuck fuel w h, Bind.bind, Prog.bind]

theorem disconnect_eq (derr : Option GoError) (w : World) :
    disconnect derr w
      = (Res.ok (match w.client.c with
          | some _ => derr
          | none => none),
         { client := tornDown w.client
           trace := w.trace ++ disconnectTrace derr w.client.c }) := by
  obtain ⟨⟨c, ic, id, sd, im⟩, tr⟩ := w
  cases c with
  | none =>
    simp [disconnect, tornDown, disconnectTrace, readClient, writeClient, Bind.bind, Prog.bind,
      Pure.pure, Prog.pure]
  | some h =>
    cases derr with
    | none =>
      simp [disconnect, tornDown, disconnectTrace, disconnectLog, readClient, writeClient, emit,
        Bind.bind, Prog.bind, Pure.pure, Prog.pure]
    | some e =>
      by_cases he : e = GoError.ErrClientDisconnected <;>
        simp [disconnect, tornDown, disconnectTrace, disconnectLog, readClient, writeClient, emit,
          Bind.bind, Prog.bind, Pure.pure, Prog.pure, he]

/-! ## The facade on a state that is not tearing down, and on one that is -/

theorem GetClient_ready (fuel : Nat) (w : World) (h : w.client.isDisconnecting = false) :
    GetClient (fuel + 1) w
      = (Res.ok (if w.client.isConnected then (w.client.c, none)
          else (none, some GoError.ErrNoMongoConnection)), w) := by
  cases hc : w.client.isConnected <;>
    simp [GetClient, getIsConnected_ready fuel w h, getClient, readClient, Bind.bind, Prog.bind,
      Pure.pure, Prog.pure, hc]

theorem GetClient_stuck (fuel : Nat) (w : World) (h : w.client.isDisconnecting = true) :
    GetClient fuel w
      = (Res.blocked, { w with trace := w.trace ++ List.replicate fuel (Event.sleep 1) }) := by
  simp [GetClient, getIsConnected_stuck fuel w h, Bind.bind, Prog.bind]

theorem GetClient_zero (w : World) : GetClient 0 w = (Res.blocked, w) := rfl

theorem GetClient_client (fuel : Nat) (w : World) : (GetClient fuel w).2.client = w.client := by
  cases hd : w.client.isDisconnecting
  · cases fuel with
    | zero => rfl
    | succ n => rw [GetClient_ready n w hd]
  · rw [GetClient_stuck fuel w hd]

theorem Disconnect_ready (fuel : Nat) (w : World) (h : w.client.isDisconnecting = false) :
    Disconnect (fuel + 1) w
      = if w.client.isConnected then
          (Res.ok none,
           { client := { w.client with shouldDisconnect := true }
             trace := w.trace
               ++ [Event.log LogLevel.warn "mongo connection marked for disconnection"] })
        else (Res.ok (some GoError.ErrNoMongoConnection), w) := by
  cases hc : w.client.isConnected <;>
    simp [Disconnect, markForDisconnect, getIsConnected_ready fuel w h,
      setShouldDisconnect_ready fuel true w h, emit, Bind.bind, Prog.bind,
      Pure.pure, Prog.pure, hc]

theorem Disconnect_stuck (fuel : Nat) (w : World) (h : w.client.isDisconnecting = true) :
    Disconnect fuel w
      = (Res.blocked, { w with trace := w.trace ++ List.replicate fuel (Event.sleep 1) }) := by
  simp [Disconnect, getIsConnected_stuck fuel w h, Bind.bind, Prog.bind]

theorem Disconnect_zero (w : World) : Disconnect 0 w = (Res.blocked, w) := rfl

/-! ## `GetClient` and `Disconnect` while no teardown is in progress -/

/-- In every state in which `isDisconnecting` is false, `GetClient` returns, with
`(nil, ErrNoMongoConnection)` if and only if `isConnected` is false and with the stored
handle and a nil error when `isConnected` is true, and it leaves the world as it found
it; in every state whatsoever it leaves the package state unchanged. -/
theorem GetClient_spec (fuel : Nat) (w : World) (h : w.client.isDisconnecting = false) :
    (∃ r, GetClient (fuel + 1) w = (Res.ok r, w)
      ∧ (r = (none, some GoError.ErrNoMongoConnection) ↔ w.client.isConnected = false)
      ∧ (w.client.isConnected = true → r = (w.client.c, none)))
    ∧ ∀ (fuel2 : Nat) (w2 : World), (GetClient fuel2 w2).2.client = w2.client := by
  refine ⟨?_, fun fuel2 w2 => GetClient_client fuel2 w2⟩
  rw [GetClient_ready fuel w h]
  cases hc : w.client.isConnected <;> simp

/-- In every state in which `isDisconnecting` is false: if `isConnected` is false,
`Disconnect` returns `ErrNoMongoConnection` and leaves the world unchanged; if
`isConnected` is true it returns nil and the only field it changes is `shouldDisconnect`,
which becomes true. -/
theorem Disconnect_spec (fuel : Nat) (w : World) (h : w.client.isDisconnecting = false) :
    (w.client.isConnected = false →
        Disconnect (fuel + 1) w = (Res.ok (some GoError.ErrNoMongoConnection), w))
    ∧ (w.client.isConnected = true →
        (Disconnect (fuel + 1) w).1 = Res.ok none
        ∧ (Disconnect (fuel + 1) w).2.client.shouldDisconnect = true
        ∧ (Disconnect (fuel + 1) w).2.client.c = w.client.c
        ∧ (Disconnect (fuel + 1) w).2.client.isConnected = w.client.isConnected
        ∧ (Disconnect (fuel + 1) w).2.client.isDisconnecting = w.client.isDisconnecting
        ∧ (Disconnect (fuel + 1) w).2.client.isMonitoringConnection
            = w.client.isMonitoringConnection) := by
  rw [Disconnect_ready fuel w h]
  constructor <;> intro hc <;> simp [hc]

/-! ## `Connect`, the caller's path -/

theorem awaitConnected_connected (fuel spins : Nat) (w : World)
    (h : w.client.isDisconnecting = false) (hc : w.client.isConnected = true) :
    awaitConnected (fuel + 1) (spins + 1) w = (Res.ok (), w) := by
  simp [awaitConnected, getIsConnected_ready fuel w h, Bind.bind, Prog.bind, Pure.pure,
    Prog.pure, hc]

theorem awaitConnected_waiting (fuel spins : Nat) (w : World)
    (h : w.client.isDisconnecting = false) (hc : w.client.isConnected = false) :
    awaitConnected (fuel + 1) spins w
      = (Res.blocked, { w with trace := w.trace ++ List.replicate spins (Event.sleep 1) }) := by
  induction spins generalizing w with
  | zero => simp [awaitConnected, block]
  | succ n ih =>
    simp [awaitConnected, getIsConnected_ready fuel w h, Bind.bind, Prog.bind, hc, emit]
    rw [ih { client := w.client, trace := w.trace ++ [Event.sleep 1] } h hc]
    simp [List.replicate_succ]

theorem Connect_zero (uri : String) (ch : Option Nat) (w : World) :
    Connect 0 uri ch w = (Res.blocked, w) := rfl

theorem Connect_stuck (fuel : Nat) (uri : String) (ch : Option Nat) (w : World)
    (h : w.client.isDisconnecting = true) :
    Connect fuel uri ch w
      = (Res.blocked, { w with trace := w.trace ++ List.replicate fuel (Event.sleep 1) }) := by
  simp [Connect, setShouldDisconnect_stuck fuel false w h, Bind.bind, Prog.bind]

theorem Connect_spawn (fuel : Nat) (uri : String) (ch : Option Nat) (w : World)
    (h : w.client.isDisconnecting = false) (hm : w.client.isMonitoringConnection = false) :
    Connect (fuel + 1) uri ch w
      = (Res.ok none,
         { client := { w.client with shouldDisconnect := false, isMonitoringConnection := true }
           trace := w.trace ++ [Event.spawnMonitor uri ch] }) := by
  obtain ⟨⟨c, ic, id, sd, im⟩, tr⟩ := w
  simp only at h hm
  subst h hm
  simp [Connect, setShouldDisconnect_ready, getIsMonitoringConnection_ready,
    setIsMonitoringConnection_ready, emit, Bind.bind, Prog.bind, Pure.pure, Prog.pure]

theorem Connect_join (fuel : Nat) (uri : String) (ch : Option Nat) (w : World)
    (h : w.client.isDisconnecting = false) (hm : w.client.isMonitoringConnection = true)
    (hc : w.client.isConnected = true) :
    Connect (fuel + 1) uri ch w
      = (Res.ok none,
         { client := { w.client with shouldDisconnect := false }
           trace := w.trace ++ [Event.spawnNotifier ch] }) := by
  obtain ⟨⟨c, ic, id, sd, im⟩, tr⟩ := w
  simp only at h hm hc
  subst h hm hc
  simp [Connect, setShouldDisconnect_ready, getIsMonitoringConnection_ready,
    awaitConnected_connected, emit, Bind.bind, Prog.bind, Pure.pure, Prog.pure]

theorem Connect_wait (fuel : Nat) (uri : String) (ch : Option Nat) (w : World)
    (h : w.client.isDisconnecting = false) (hm : w.client.isMonitoringConnection = true)
    (hc : w.client.isConnected = false) :
    Connect (fuel + 1) uri ch w
      = (Res.blocked,
         { client := { w.client with shouldDisconnect := false }
           trace := w.trace ++ List.replicate (fuel + 1) (Event.sleep 1) }) := by
  obtain ⟨⟨c, ic, id, sd, im⟩, tr⟩ := w
  simp only at h hm hc
  subst h hm hc
  simp [Connect, setShouldDisconnect_ready, getIsMonitoringConnection_ready,
    awaitConnected_waiting, Bind.bind, Prog.bind, Pure.pure, Prog.pure]


theorem Connect_returned (fuel : Nat) (uri : String) (ch : Option Nat) (w w2 : World)
    (r : Option GoError) (hret : Connect fuel uri ch w = (Res.ok r, w2)) :
    r = none ∧ w.client.isDisconnecting = false
    ∧ ((w.client.isMonitoringConnection = false
          ∧ w2 = { client := { w.client with shouldDisconnect := false,
                                             isMonitoringConnection := true }
                   trace := w.trace ++ [Event.spawnMonitor uri ch] })
        ∨ (w.client.isMonitoringConnection = true ∧ w.client.isConnected = true
          ∧ w2 = { client := { w.client with shouldDisconnect := false }
                   trace := w.trace ++ [Event.spawnNotifier ch] })) := by
  cases fuel with
  | zero => rw [Connect_zero] at hret; cases hret
  | succ n =>
    cases hd : w.client.isDisconnecting with
    | true => rw [Connect_stuck _ uri ch w hd] at hret; cases hret
    | false =>
      cases hm : w.client.isMonitoringConnection with
      | false =>
        rw [Connect_spawn n uri ch w hd hm] at hret
        cases hret
        simp
      | true =>
        cases hc : w.client.isConnected with
        | false => rw [Connect_wait n uri ch w hd hm hc] at hret; cases hret
        | true =>
          rw [Connect_join n uri ch w hd hm hc] at hret
          cases hret
          simp

/-! ## The monitor cycle on a state that is not tearing down -/

theorem connect_ready (fuel : Nat) (uri : String) (dialed : Except GoError Handle) (w : World)
    (h : w.client.isDisconnecting = false) :
    connect (fuel + 1) uri dialed w
      = if w.client.isConnected then (Res.ok none, w)
        else
          match dialed with
          | Except.ok c =>
            (Res.ok none, { client := { w.client with c := some c }
                            trace := w.trace ++ [Event.dial uri] })
          | Except.error err =>
            (Res.ok (some err), { client := w.client, trace := w.trace ++ [Event.dial uri] }) := by
  obtain ⟨⟨c, ic, id, sd, im⟩, tr⟩ := w
  simp only at h
  subst h
  cases ic <;> cases dialed <;>
    simp [connect, getIsConnected_ready, setIsConnected_ready, setClient, writeClient, emit,
      Bind.bind, Prog.bind, Pure.pure, Prog.pure]

theorem cycleDial_ready (fuel : Nat) (uri : String) (env : CycleEnv) (w : World)
    (h : w.client.isDisconnecting = false) :
    cycleDial (fuel + 1) uri env w
      = (Res.ok w.client.isConnected,
         { client := afterDial env w.client
           trace := w.trace ++ (if w.client.isConnected then [] else [Event.dial uri]) }) := by
  obtain ⟨⟨c, ic, id, sd, im⟩, tr⟩ := w
  obtain ⟨d, p, de, pa⟩ := env
  simp only at h
  subst h
  cases ic <;> cases d <;>
    simp [cycleDial, connect_ready, getIsConnected_ready, afterDial, Bind.bind, Prog.bind,
      Pure.pure, Prog.pure]

theorem cycleDial_stuck (fuel : Nat) (uri : String) (env : CycleEnv) (w : World)
    (h : w.client.isDisconnecting = true) :
    cycleDial fuel uri env w
      = (Res.blocked, { w with trace := w.trace ++ List.replicate fuel (Event.sleep 1) }) := by
  simp [cycleDial, getIsConnected_stuck fuel w h, Bind.bind, Prog.bind]

theorem cycleProbe_noHandle (fuel : Nat) (ch : Option Nat) (env : CycleEnv) (old n : Bool)
    (w : World) (h : w.client.isDisconnecting = false) (hc : w.client.c = none) :
    cycleProbe (fuel + 1) ch env old n w
      = (Res.ok n, { client := { w.client with isConnected := false }
                     trace := w.trace ++ [Event.sleep 5] }) := by
  obtain ⟨⟨c, ic, id, sd, im⟩, tr⟩ := w
  simp only at h hc
  subst h hc
  simp [cycleProbe, getClient, readClient, setIsConnected_ready, emit, Bind.bind, Prog.bind,
    Pure.pure, Prog.pure]

theorem cycleProbe_pingFailed (fuel : Nat) (ch : Option Nat) (env : CycleEnv) (old n : Bool)
    (w : World) (hd : Handle) (e : GoError) (h : w.client.isDisconnecting = false)
    (hc : w.client.c = some hd) (hp : env.pingErr = some e) :
    cycleProbe (fuel + 1) ch env old n w
      = (Res.ok n,
         { client := tornDown w.client
           trace := w.trace ++ [Event.ping hd, Event.log LogLevel.warn "ping error"]
             ++ disconnectTrace env.discErr (some hd)
             ++ (if old then [Event.log LogLevel.error "cannot create mongo session"] else [])
             ++ [Event.sleep 5] }) := by
  obtain ⟨⟨c, ic, id, sd, im⟩, tr⟩ := w
  obtain ⟨d, p, de, pa⟩ := env
  simp only at h hc hp
  subst h hc hp
  cases old <;>
    simp [cycleProbe, probeFailed, ping, getClient, readClient, disconnect_eq, tornDown,
      getIsConnected_ready, emit, Bind.bind, Prog.bind, Pure.pure, Prog.pure]

theorem cycleProbe_pingOk (fuel : Nat) (ch : Option Nat) (env : CycleEnv) (old n : Bool)
    (w : World) (hd : Handle) (h : w.client.isDisconnecting = false)
    (hc : w.client.c = some hd) (hp : env.pingErr = none) :
    cycleProbe (fuel + 1) ch env old n w
      = (Res.ok (match old, env.parsed, ch with
          | false, Except.ok _, some _ => true
          | _, _, _ => n),
         { client := { w.client with isConnected := true }
           trace := w.trace ++ [Event.ping hd]
             ++ (match old, env.parsed with
                | false, Except.ok hosts =>
                  Event.log LogLevel.info ("Connected to mongo at " ++ hostsStr hosts)
                    :: (match ch, n with
                      | some k, false => [Event.signal k]
                      | _, _ => [])
                | _, _ => [])
             ++ [Event.sleep 5] }) := by
  obtain ⟨⟨c, ic, id, sd, im⟩, tr⟩ := w
  obtain ⟨d, p, de, pa⟩ := env
  simp only at h hc hp
  subst h hc hp
  cases old <;> cases pa <;> cases ch <;> cases n <;>
    simp [cycleProbe, probeSucceeded, ping, getClient, readClient, setIsConnected_ready,
      getIsConnected_ready, emit, Bind.bind, Prog.bind, Pure.pure, Prog.pure]


theorem monitorCycle_stuck (fuel : Nat) (uri : String) (ch : Option Nat) (env : CycleEnv)
    (n : Bool) (w : World) (h : w.client.isDisconnecting = true) :
    monitorCycle fuel uri ch env n w
      = (Res.blocked, { w with trace := w.trace ++ List.replicate fuel (Event.sleep 1) }) := by
  simp [monitorCycle, cycleDial_stuck fuel uri env w h, Bind.bind, Prog.bind]

theorem monitorCycle_zero (uri : String) (ch : Option Nat) (env : CycleEnv) (n : Bool)
    (w : World) : monitorCycle 0 uri ch env n w = (Res.blocked, w) := rfl

theorem afterDial_isDisconnecting (env : CycleEnv) (mc : mongoclient) :
    (afterDial env mc).isDisconnecting = mc.isDisconnecting := by
  unfold afterDial
  split
  · rfl
  · split <;> rfl

theorem signalsOn_append (k : Nat) (xs ys : List Event) :
    signalsOn k (xs ++ ys) = signalsOn k xs + signalsOn k ys := by
  simp [signalsOn]

theorem signalsOn_nil (k : Nat) : signalsOn k [] = 0 := rfl

theorem signalsOn_cons (k : Nat) (e : Event) (es : List Event) :
    signalsOn k (e :: es) = signalsOn k es + if e = Event.signal k then 1 else 0 := by
  simp [signalsOn, List.count_cons]

theorem signalsOn_replicate_sleep (k n s : Nat) :
    signalsOn k (List.replicate n (Event.sleep s)) = 0 := by
  simp [signalsOn, List.count_replicate]

theorem monitorsStarted_append (xs ys : List Event) :
    monitorsStarted (xs ++ ys) = monitorsStarted xs + monitorsStarted ys := by
  simp [monitorsStarted]

theorem monitorsStarted_nil : monitorsStarted [] = 0 := rfl

theorem monitorsStarted_cons (e : Event) (es : List Event) :
    monitorsStarted (e :: es)
      = monitorsStarted es + (match e with
          | Event.spawnMonitor _ _ => 1
          | _ => 0) := by
  cases e <;> simp [monitorsStarted, List.countP_cons]

theorem monitorsStarted_replicate_sleep (n s : Nat) :
    monitorsStarted (List.replicate n (Event.sleep s)) = 0 := by
  induction n with
  | zero => rfl
  | succ m ih => simp [List.replicate_succ, monitorsStarted_cons, ih]

theorem signalsOn_disconnectTrace (k : Nat) (derr : Option GoError) (c : Option Handle) :
    signalsOn k (disconnectTrace derr c) = 0 := by
  cases c with
  | none => simp [disconnectTrace, signalsOn_nil]
  | some h =>
    cases derr with
    | none => simp [disconnectTrace, disconnectLog, signalsOn_cons, signalsOn_nil]
    | some e =>
      by_cases he : e = GoError.ErrClientDisconnected <;>
        simp [disconnectTrace, disconnectLog, signalsOn_cons, signalsOn_nil, he]

theorem monitorsStarted_disconnectTrace (derr : Option GoError) (c : Option Handle) :
    monitorsStarted (disconnectTrace derr c) = 0 := by
  cases c with
  | none => simp [disconnectTrace, monitorsStarted_nil]
  | some h =>
    cases derr with
    | none => simp [disconnectTrace, disconnectLog, monitorsStarted_cons, monitorsStarted_nil]
    | some e =>
      by_cases he : e = GoError.ErrClientDisconnected <;>
        simp [disconnectTrace, disconnectLog, monitorsStarted_cons, monitorsStarted_nil, he]

theorem monitorCycle_ready (fuel : Nat) (uri : String) (ch : Option Nat) (env : CycleEnv)
    (n : Bool) (w : World) (h : w.client.isDisconnecting = false) :
    ∃ n2,
      (monitorCycle (fuel + 1) uri ch env n w).1 = Res.ok n2
      ∧ (monitorCycle (fuel + 1) uri ch env n w).2.client
          = afterProbe env (afterDial env w.client)
      ∧ (n = true → n2 = true)
      ∧ (∀ k, signalsOn k (monitorCycle (fuel + 1) uri ch env n w).2.trace
          = signalsOn k w.trace + if n = false ∧ n2 = true ∧ ch = some k then 1 else 0)
      ∧ monitorsStarted (monitorCycle (fuel + 1) uri ch env n w).2.trace
          = monitorsStarted w.trace
      ∧ (n = false → n2 = true →
          w.client.isConnected = false
          ∧ (afterProbe env (afterDial env w.client)).isConnected = true
          ∧ ∃ hosts, env.parsed = Except.ok hosts) := by
  have hd : (afterDial env w.client).isDisconnecting = false := by
    rw [afterDial_isDisconnecting]; exact h
  simp only [monitorCycle, Bind.bind, Prog.bind, cycleDial_ready fuel uri env w h]
  cases hc : (afterDial env w.client).c with
  | none =>
    rw [cycleProbe_noHandle fuel ch env _ n _ hd hc]
    refine ⟨n, rfl, ?_, fun hn => hn, ?_, ?_, fun h1 h2 => by rw [h1] at h2; cases h2⟩
    · simp [afterProbe, hc]
    · intro k
      cases n <;> cases hw : w.client.isConnected <;>
        simp [signalsOn_append, signalsOn_cons, signalsOn_nil]
    · cases hw : w.client.isConnected <;> simp [monitorsStarted_append, monitorsStarted_cons, monitorsStarted_nil]
  | some hdl =>
    cases hp : env.pingErr with
    | some e =>
      rw [cycleProbe_pingFailed fuel ch env _ n _ hdl e hd hc hp]
      refine ⟨n, rfl, ?_, fun hn => hn, ?_, ?_, fun h1 h2 => by rw [h1] at h2; cases h2⟩
      · simp [afterProbe, hc, hp]
      · intro k
        cases n <;> cases hw : w.client.isConnected <;>
          simp [signalsOn_append, signalsOn_cons, signalsOn_nil, signalsOn_disconnectTrace]
      · cases hw : w.client.isConnected <;>
          simp [monitorsStarted_append, monitorsStarted_cons, monitorsStarted_nil,
            monitorsStarted_disconnectTrace]
    | none =>
      rw [cycleProbe_pingOk fuel ch env _ n _ hdl hd hc hp]
      refine ⟨_, rfl, ?_, ?_, ?_, ?_, ?_⟩
      · simp [afterProbe, hc, hp]
      · intro hn
        subst hn
        cases w.client.isConnected <;> cases env.parsed <;> cases ch <;> rfl
      · intro k
        cases n <;> cases hw : w.client.isConnected <;> cases hpa : env.parsed <;>
          cases ch <;> simp [signalsOn_append, signalsOn_cons, signalsOn_nil]
      · cases n <;> cases hw : w.client.isConnected <;> cases hpa : env.parsed <;>
          cases ch <;> simp [monitorsStarted_append, monitorsStarted_cons, monitorsStarted_nil]
      · intro hn hn2
        subst hn
        cases hw : w.client.isConnected with
        | false =>
          cases hpa : env.parsed with
          | error e => rw [hw, hpa] at hn2; simp at hn2
          | ok hosts => simp [afterProbe, hc, hp]
        | true => rw [hw] at hn2; simp at hn2

theorem afterProbe_isDisconnecting (env : CycleEnv) (mc : mongoclient)
    (h : mc.isDisconnecting = false) : (afterProbe env mc).isDisconnecting = false := by
  unfold afterProbe
  split
  · exact h
  · split
    · exact h
    · rfl

theorem afterDial_flags (env : CycleEnv) (mc : mongoclient) :
    (afterDial env mc).shouldDisconnect = mc.shouldDisconnect
    ∧ (afterDial env mc).isMonitoringConnection = mc.isMonitoringConnection
    ∧ (afterDial env mc).isConnected = mc.isConnected := by
  unfold afterDial
  split
  · exact ⟨rfl, rfl, rfl⟩
  · split <;> exact ⟨rfl, rfl, rfl⟩

theorem afterProbe_flags (env : CycleEnv) (mc : mongoclient) :
    (afterProbe env mc).shouldDisconnect = mc.shouldDisconnect
    ∧ (afterProbe env mc).isMonitoringConnection = mc.isMonitoringConnection := by
  unfold afterProbe
  split
  · exact ⟨rfl, rfl⟩
  · split <;> exact ⟨rfl, rfl⟩

/-! ## One evaluation of the loop head -/

theorem monitorIter_zero (uri : String) (ch : Option Nat) (env : CycleEnv) (n : Bool)
    (w : World) : monitorIter 0 uri ch env n w = (Res.blocked, w) := rfl

theorem monitorIter_stuck (fuel : Nat) (uri : String) (ch : Option Nat) (env : CycleEnv)
    (n : Bool) (w : World) (h : w.client.isDisconnecting = true) :
    monitorIter fuel uri ch env n w
      = (Res.blocked, { w with trace := w.trace ++ List.replicate fuel (Event.sleep 1) }) := by
  simp [monitorIter, getShouldDisconnect_stuck fuel w h, Bind.bind, Prog.bind]

theorem monitorIter_exit (fuel : Nat) (uri : String) (ch : Option Nat) (env : CycleEnv)
    (n : Bool) (w : World) (h : w.client.isDisconnecting = false)
    (hs : w.client.shouldDisconnect = true) :
    monitorIter (fuel + 1) uri ch env n w
      = (Res.ok LoopState.stopped,
         { client := { tornDown w.client with isMonitoringConnection := false }
           trace := w.trace ++ disconnectTrace env.discErr w.client.c }) := by
  obtain ⟨⟨c, ic, id, sd, im⟩, tr⟩ := w
  simp only at h hs
  subst h hs
  simp [monitorIter, getShouldDisconnect_ready, disconnect_eq, tornDown,
    setIsMonitoringConnection_ready, Bind.bind, Prog.bind, Pure.pure, Prog.pure]

theorem monitorIter_body (fuel : Nat) (uri : String) (ch : Option Nat) (env : CycleEnv)
    (n : Bool) (w : World) (h : w.client.isDisconnecting = false)
    (hs : w.client.shouldDisconnect = false) :
    ∃ n2,
      (monitorCycle (fuel + 1) uri ch env n w).1 = Res.ok n2
      ∧ monitorIter (fuel + 1) uri ch env n w
          = (Res.ok (LoopState.running n2), (monitorCycle (fuel + 1) uri ch env n w).2) := by
  obtain ⟨n2, h1, -⟩ := monitorCycle_ready fuel uri ch env n w h
  refine ⟨n2, h1, ?_⟩
  rcases hm : monitorCycle (fuel + 1) uri ch env n w with ⟨r, w2⟩
  rw [hm] at h1
  simp only at h1
  subst h1
  simp [monitorIter, getShouldDisconnect_ready fuel w h, hs, hm, Bind.bind, Prog.bind,
    Pure.pure, Prog.pure]

/-- What one loop iteration does to the signal count, the started monitors and the
teardown flag, in every world. -/
theorem monitorIter_effect (fuel : Nat) (uri : String) (ch : Option Nat) (env : CycleEnv)
    (n : Bool) (w : World) :
    (∀ k, signalsOn k (monitorIter fuel uri ch env n w).2.trace
        = signalsOn k w.trace
          + if n = false ∧ (monitorIter fuel uri ch env n w).1
                = Res.ok (LoopState.running true) ∧ ch = some k then 1 else 0)
    ∧ (n = true → (monitorIter fuel uri ch env n w).1 ≠ Res.ok (LoopState.running false))
    ∧ monitorsStarted (monitorIter fuel uri ch env n w).2.trace = monitorsStarted w.trace
    ∧ (w.client.isDisconnecting = false →
        (monitorIter fuel uri ch env n w).2.client.isDisconnecting = false) := by
  cases fuel with
  | zero =>
    rw [monitorIter_zero]
    simp
  | succ f =>
    cases hd : w.client.isDisconnecting with
    | true =>
      rw [monitorIter_stuck _ uri ch env n w hd]
      simp [signalsOn_append, signalsOn_replicate_sleep, monitorsStarted_append,
        monitorsStarted_replicate_sleep]
    | false =>
      cases hs : w.client.shouldDisconnect with
      | true =>
        rw [monitorIter_exit f uri ch env n w hd hs]
        simp [signalsOn_append, signalsOn_disconnectTrace, monitorsStarted_append,
          monitorsStarted_disconnectTrace, tornDown]
      | false =>
        obtain ⟨n2, h1, h2⟩ := monitorIter_body f uri ch env n w hd hs
        obtain ⟨n3, g1, g2, g3, g4, g5, -⟩ := monitorCycle_ready f uri ch env n w hd
        rw [h1] at g1
        cases g1
        rw [h2]
        refine ⟨?_, ?_, ?_, ?_⟩
        · intro k
          rw [g4 k]
          simp
        · intro hn hr
          have := g3 hn
          simp at hr
          rw [hr] at this
          cases this
        · exact g5
        · intro _
          show (monitorCycle (f + 1) uri ch env n w).2.client.isDisconnecting = false
          rw [g2]
          exact afterProbe_isDisconnecting env _
            (by rw [afterDial_isDisconnecting]; exact hd)

/-! ## Calls of other goroutines between two iterations -/

theorem Disconnect_effect (fuel : Nat) (w : World) :
    (∀ k, signalsOn k (Disconnect fuel w).2.trace = signalsOn k w.trace)
    ∧ monitorsStarted (Disconnect fuel w).2.trace = monitorsStarted w.trace
    ∧ (Disconnect fuel w).2.client.isDisconnecting = w.client.isDisconnecting
    ∧ (Disconnect fuel w).2.client.c = w.client.c
    ∧ (Disconnect fuel w).2.client.isConnected = w.client.isConnected
    ∧ (Disconnect fuel w).2.client.isMonitoringConnection = w.client.isMonitoringConnection := by
  cases fuel with
  | zero => rw [Disconnect_zero]; simp
  | succ f =>
    cases hd : w.client.isDisconnecting with
    | true =>
      rw [Disconnect_stuck _ w hd]
      simp [signalsOn_append, signalsOn_replicate_sleep, monitorsStarted_append,
        monitorsStarted_replicate_sleep, hd]
    | false =>
      rw [Disconnect_ready f w hd]
      cases hc : w.client.isConnected <;>
        simp [signalsOn_append, signalsOn_cons, signalsOn_nil, monitorsStarted_append,
          monitorsStarted_cons, monitorsStarted_nil, hd, hc]

theorem GetClient_effect (fuel : Nat) (w : World) :
    (∀ k, signalsOn k (GetClient fuel w).2.trace = signalsOn k w.trace)
    ∧ monitorsStarted (GetClient fuel w).2.trace = monitorsStarted w.trace
    ∧ (GetClient fuel w).2.client = w.client := by
  cases fuel with
  | zero => rw [GetClient_zero]; simp
  | succ f =>
    cases hd : w.client.isDisconnecting with
    | true =>
      rw [GetClient_stuck _ w hd]
      simp [signalsOn_append, signalsOn_replicate_sleep, monitorsStarted_append,
        monitorsStarted_replicate_sleep]
    | false =>
      rw [GetClient_ready f w hd]
      simp

theorem FacadeCall_run_effect (fuel : Nat) (call : FacadeCall) (w : World) :
    (∀ k, signalsOn k (call.run fuel w).2.trace = signalsOn k w.trace)
    ∧ monitorsStarted (call.run fuel w).2.trace = monitorsStarted w.trace
    ∧ (call.run fuel w).2.client.isDisconnecting = w.client.isDisconnecting
    ∧ (call.run fuel w).2.client.c = w.client.c
    ∧ (call.run fuel w).2.client.isConnected = w.client.isConnected
    ∧ (call.run fuel w).2.client.isMonitoringConnection = w.client.isMonitoringConnection := by
  cases call with
  | Disconnect =>
    have h := Disconnect_effect fuel w
    rcases hr : Disconnect fuel w with ⟨r, w2⟩
    rw [hr] at h
    cases r <;> simpa [FacadeCall.run, Bind.bind, Prog.bind, Pure.pure, Prog.pure, hr] using h
  | GetClient =>
    have h := GetClient_effect fuel w
    rcases hr : GetClient fuel w with ⟨r, w2⟩
    rw [hr] at h
    simp only at h
    obtain ⟨h1, h2, h3⟩ := h
    cases r <;>
      simp [FacadeCall.run, Bind.bind, Prog.bind, Pure.pure, Prog.pure, hr, h1, h2, h3]

theorem runCalls_effect (fuel : Nat) (calls : List FacadeCall) (w : World) :
    (∀ k, signalsOn k (runCalls fuel calls w).2.trace = signalsOn k w.trace)
    ∧ monitorsStarted (runCalls fuel calls w).2.trace = monitorsStarted w.trace
    ∧ (runCalls fuel calls w).2.client.isDisconnecting = w.client.isDisconnecting
    ∧ (runCalls fuel calls w).2.client.c = w.client.c
    ∧ (runCalls fuel calls w).2.client.isConnected = w.client.isConnected
    ∧ (runCalls fuel calls w).2.client.isMonitoringConnection
        = w.client.isMonitoringConnection := by
  induction calls generalizing w with
  | nil => simp [runCalls, Pure.pure, Prog.pure]
  | cons call rest ih =>
    have h := FacadeCall_run_effect fuel call w
    rcases hr : call.run fuel w with ⟨r, w2⟩
    rw [hr] at h
    simp only at h
    cases r with
    | ok u =>
      have h2 := ih w2
      simp only [runCalls, Bind.bind, Prog.bind, hr]
      obtain ⟨a1, a2, a3, a4, a5, a6⟩ := h
      obtain ⟨b1, b2, b3, b4, b5, b6⟩ := h2
      exact ⟨fun k => (b1 k).trans (a1 k), b2.trans a2, b3.trans a3, b4.trans a4,
        b5.trans a5, b6.trans a6⟩
    | blocked => simpa [runCalls, Bind.bind, Prog.bind, hr] using h
    | panicked => simpa [runCalls, Bind.bind, Prog.bind, hr] using h

/-! ## The monitor loop over a schedule -/

theorem monitorLoop_signals (fuel : Nat) (uri : String) (ch : Option Nat) (k : Nat)
    (turns : List Turn) (st : LoopState) (w : World) :
    signalsOn k (monitorLoop fuel uri ch turns st w).2.trace
      ≤ signalsOn k w.trace + (if st = LoopState.running false then 1 else 0) := by
  induction turns generalizing st w with
  | nil => simp [monitorLoop, Pure.pure, Prog.pure]
  | cons turn rest ih =>
    cases st with
    | stopped => simp [monitorLoop, Pure.pure, Prog.pure]
    | running n =>
      have hc := (runCalls_effect fuel turn.calls w).1 k
      rcases hr : runCalls fuel turn.calls w with ⟨r0, w0⟩
      rw [hr] at hc
      simp only at hc
      cases r0 with
      | blocked => simp [monitorLoop, Bind.bind, Prog.bind, hr, hc]
      | panicked => simp [monitorLoop, Bind.bind, Prog.bind, hr, hc]
      | ok u =>
        obtain ⟨e1, e2, -, -⟩ := monitorIter_effect fuel uri ch turn.env n w0
        have e1k := e1 k
        rcases hi : monitorIter fuel uri ch turn.env n w0 with ⟨r1, w1⟩
        rw [hi] at e1k e2
        simp only at e1k e2
        cases r1 with
        | blocked =>
          simp only [monitorLoop, Bind.bind, Prog.bind, hr, hi]
          simp at e1k
          omega
        | panicked =>
          simp only [monitorLoop, Bind.bind, Prog.bind, hr, hi]
          simp at e1k
          omega
        | ok st2 =>
          have h3 := ih st2 w1
          simp only [monitorLoop, Bind.bind, Prog.bind, hr, hi]
          cases n with
          | true =>
            have hne : st2 ≠ LoopState.running false := by
              intro hst
              exact e2 rfl (by rw [hst])
            simp at e1k
            simp [hne] at h3
            simp
            omega
          | false =>
            by_cases hst : st2 = LoopState.running true
            · subst hst
              simp at h3
              have : signalsOn k w1.trace ≤ signalsOn k w0.trace + 1 := by
                rw [e1k]
                split <;> omega
              simp
              omega
            · have : signalsOn k w1.trace = signalsOn k w0.trace := by
                rw [e1k]
                simp [hst]
              have h4 : signalsOn k (monitorLoop fuel uri ch rest st2 w1).2.trace
                  ≤ signalsOn k w1.trace + 1 := by
                refine le_trans h3 ?_
                split <;> omega
              simp
              omega

theorem monitorLoop_stopped (fuel : Nat) (uri : String) (ch : Option Nat) (turns : List Turn)
    (w : World) :
    monitorLoop fuel uri ch turns LoopState.stopped w = (Res.ok LoopState.stopped, w) := by
  cases turns <;> rfl

theorem monitorLoop_running (fuel : Nat) (uri : String) (ch : Option Nat) (turns : List Turn)
    (n0 n : Bool) (w w1 : World) (hw : w.client.isDisconnecting = false)
    (hrun : monitorLoop fuel uri ch turns (LoopState.running n0) w
        = (Res.ok (LoopState.running n), w1)) :
    w1.client.isDisconnecting = false
    ∧ (n0 = true → n = true)
    ∧ ∀ k, signalsOn k w1.trace
        = signalsOn k w.trace + if n0 = false ∧ n = true ∧ ch = some k then 1 else 0 := by
  induction turns generalizing n0 w with
  | nil =>
    simp only [monitorLoop, Pure.pure, Prog.pure] at hrun
    cases hrun
    refine ⟨hw, fun h => h, fun k => ?_⟩
    cases n <;> simp
  | cons turn rest ih =>
    obtain ⟨c1, -, c3, -⟩ := runCalls_effect fuel turn.calls w
    rcases hr : runCalls fuel turn.calls w with ⟨r0, w0⟩
    rw [hr] at c1 c3
    simp only at c1 c3
    simp only [monitorLoop, Bind.bind, Prog.bind, hr] at hrun
    cases r0 with
    | blocked => cases hrun
    | panicked => cases hrun
    | ok u =>
      simp only at hrun
      obtain ⟨e1, e2, -, e4⟩ := monitorIter_effect fuel uri ch turn.env n0 w0
      rcases hi : monitorIter fuel uri ch turn.env n0 w0 with ⟨r1, w1b⟩
      rw [hi] at e1 e2 e4 hrun
      simp only at e1 e2 e4 hrun
      cases r1 with
      | blocked => cases hrun
      | panicked => cases hrun
      | ok st2 =>
        simp only at hrun
        cases st2 with
        | stopped =>
          rw [monitorLoop_stopped] at hrun
          cases hrun
        | running n2 =>
          have hw1 : w1b.client.isDisconnecting = false := e4 (by rw [c3]; exact hw)
          obtain ⟨i1, i2, i3⟩ := ih n2 w1b hw1 hrun
          refine ⟨i1, ?_, ?_⟩
          · intro h0
            apply i2
            cases n2 with
            | true => rfl
            | false => exact absurd rfl (e2 h0)
          · intro k
            rw [i3 k, e1 k, c1 k]
            cases n0 <;> cases n2 <;> cases n <;> simp_all

theorem monitorLoop_monitorsStarted (fuel : Nat) (uri : String) (ch : Option Nat)
    (turns : List Turn) (st : LoopState) (w : World) :
    monitorsStarted (monitorLoop fuel uri ch turns st w).2.trace = monitorsStarted w.trace := by
  induction turns generalizing st w with
  | nil => simp [monitorLoop, Pure.pure, Prog.pure]
  | cons turn rest ih =>
    cases st with
    | stopped => simp [monitorLoop, Pure.pure, Prog.pure]
    | running n =>
      obtain ⟨-, c2, -⟩ := runCalls_effect fuel turn.calls w
      rcases hr : runCalls fuel turn.calls w with ⟨r0, w0⟩
      rw [hr] at c2
      simp only at c2
      cases r0 with
      | blocked => simpa [monitorLoop, Bind.bind, Prog.bind, hr] using c2
      | panicked => simpa [monitorLoop, Bind.bind, Prog.bind, hr] using c2
      | ok u =>
        obtain ⟨-, -, e3, -⟩ := monitorIter_effect fuel uri ch turn.env n w0
        rcases hi : monitorIter fuel uri ch turn.env n w0 with ⟨r1, w1⟩
        rw [hi] at e3
        simp only at e3
        cases r1 with
        | blocked => simp [monitorLoop, Bind.bind, Prog.bind, hr, hi, e3, c2]
        | panicked => simp [monitorLoop, Bind.bind, Prog.bind, hr, hi, e3, c2]
        | ok st2 =>
          simp only [monitorLoop, Bind.bind, Prog.bind, hr, hi]
          rw [ih st2 w1, e3, c2]

/-- While nobody asks for a disconnect, loop iterations leave the monitoring flag set. -/
theorem monitorLoop_quiet (fuel : Nat) (uri : String) (ch : Option Nat)
    (envs : List CycleEnv) (n : Bool) (w : World)
    (hd : w.client.isDisconnecting = false) (hs : w.client.shouldDisconnect = false)
    (hm : w.client.isMonitoringConnection = true) :
    (monitorLoop fuel uri ch (quietTurns envs) (LoopState.running n) w).2.client.isDisconnecting
        = false
    ∧ (monitorLoop fuel uri ch (quietTurns envs) (LoopState.running n) w).2.client.shouldDisconnect
        = false
    ∧ (monitorLoop fuel uri ch (quietTurns envs)
        (LoopState.running n) w).2.client.isMonitoringConnection = true := by
  induction envs generalizing n w with
  | nil => exact ⟨hd, hs, hm⟩
  | cons env rest ih =>
    cases fuel with
    | zero =>
      simp only [quietTurns, List.map_cons, monitorLoop, runCalls, Bind.bind, Prog.bind,
        Pure.pure, Prog.pure, monitorIter_zero]
      exact ⟨hd, hs, hm⟩
    | succ f =>
      obtain ⟨n2, h1, h2⟩ := monitorIter_body f uri ch env n w hd hs
      obtain ⟨n3, -, g2, -⟩ := monitorCycle_ready f uri ch env n w hd
      have q1 : (monitorCycle (f + 1) uri ch env n w).2.client.isDisconnecting = false := by
        rw [g2]
        exact afterProbe_isDisconnecting env _ (by rw [afterDial_isDisconnecting]; exact hd)
      have q2 : (monitorCycle (f + 1) uri ch env n w).2.client.shouldDisconnect = false := by
        rw [g2, (afterProbe_flags env _).1, (afterDial_flags env _).1]; exact hs
      have q3 : (monitorCycle (f + 1) uri ch env n w).2.client.isMonitoringConnection
          = true := by
        rw [g2, (afterProbe_flags env _).2, (afterDial_flags env _).2.1]; exact hm
      have := ih n2 (monitorCycle (f + 1) uri ch env n w).2 q1 q2 q3
      simpa only [quietTurns, List.map_cons, monitorLoop, runCalls, Bind.bind, Prog.bind,
        Pure.pure, Prog.pure, h2] using this

theorem Connect_monitorsStarted (fuel : Nat) (uri : String) (ch : Option Nat) (w : World) :
    monitorsStarted (Connect fuel uri ch w).2.trace
      = monitorsStarted w.trace
        + if (Connect fuel uri ch w).1 = Res.ok none
              ∧ w.client.isMonitoringConnection = false then 1 else 0 := by
  cases fuel with
  | zero => rw [Connect_zero]; simp
  | succ f =>
    cases hd : w.client.isDisconnecting with
    | true =>
      rw [Connect_stuck _ uri ch w hd]
      simp [monitorsStarted_append, monitorsStarted_replicate_sleep]
    | false =>
      cases hm : w.client.isMonitoringConnection with
      | false =>
        rw [Connect_spawn f uri ch w hd hm]
        simp [monitorsStarted_append, monitorsStarted_cons, monitorsStarted_nil]
      | true =>
        cases hc : w.client.isConnected with
        | false =>
          rw [Connect_wait f uri ch w hd hm hc]
          simp [monitorsStarted_append, monitorsStarted_replicate_sleep]
        | true =>
          rw [Connect_join f uri ch w hd hm hc]
          simp [monitorsStarted_append, monitorsStarted_cons, monitorsStarted_nil]

theorem Connect_keeps_monitoring (fuel : Nat) (uri : String) (ch : Option Nat) (w : World)
    (hm : w.client.isMonitoringConnection = true) :
    (Connect fuel uri ch w).2.client.isMonitoringConnection = true := by
  cases fuel with
  | zero => rw [Connect_zero]; exact hm
  | succ f =>
    cases hd : w.client.isDisconnecting with
    | true => rw [Connect_stuck _ uri ch w hd]; exact hm
    | false =>
      cases hc : w.client.isConnected with
      | false => rw [Connect_wait f uri ch w hd hm hc]; exact hm
      | true => rw [Connect_join f uri ch w hd hm hc]; exact hm

/-! ## C3: `Connect` returns nil and clears `shouldDisconnect` -/

/-- C3: for every state, URI and channel, whenever `Connect` returns it returns nil and
leaves `shouldDisconnect` false; when `isMonitoringConnection` was false at the call, the
returned state has `isMonitoringConnection` true while the handle and `isConnected` are
as they were. Moreover the call does return whenever no teardown is in progress and no
monitor was running. -/
theorem Connect_returns_nil (fuel : Nat) (uri : String) (ch : Option Nat) (w w2 : World)
    (r : Option GoError) (hret : Connect fuel uri ch w = (Res.ok r, w2)) :
    r = none
    ∧ w2.client.shouldDisconnect = false
    ∧ (w.client.isMonitoringConnection = false →
        w2.client.isMonitoringConnection = true
        ∧ w2.client.c = w.client.c
        ∧ w2.client.isConnected = w.client.isConnected)
    ∧ ∀ (fuel2 : Nat) (w3 : World), w3.client.isDisconnecting = false →
        w3.client.isMonitoringConnection = false →
        (Connect (fuel2 + 1) uri ch w3).1 = Res.ok none := by
  obtain ⟨h1, -, h3⟩ := Connect_returned fuel uri ch w w2 r hret
  refine ⟨h1, ?_, ?_, ?_⟩
  · rcases h3 with ⟨-, rfl⟩ | ⟨-, -, rfl⟩ <;> rfl
  · intro hm
    rcases h3 with ⟨-, rfl⟩ | ⟨hm2, -, -⟩
    · exact ⟨rfl, rfl, rfl⟩
    · rw [hm] at hm2; cases hm2
  · intro fuel2 w3 h3 hm3
    rw [Connect_spawn fuel2 uri ch w3 h3 hm3]

/-- C3, witness: the first `Connect` of the process returns nil, leaves `shouldDisconnect`
false and sets the monitoring flag. -/
theorem Connect_returns_nil_witness :
    Connect 1 "srv" (some 0) World.init = (Res.ok none, afterFirstConnect)
      ∧ afterFirstConnect.client.shouldDisconnect = false
      ∧ afterFirstConnect.client.isMonitoringConnection = true :=
  ⟨rfl, (Connect_returns_nil 1 "srv" (some 0) World.init afterFirstConnect none rfl).2.1,
    ((Connect_returns_nil 1 "srv" (some 0) World.init afterFirstConnect none rfl).2.2.1 rfl).1⟩

/-! ## C4: two successive `Connect` calls start at most one monitor loop -/

/-- C4: in every state `Connect` starts a monitor loop only if `isMonitoringConnection`
was false at the call (and then exactly one); when it returns, `isMonitoringConnection`
is true; and after any number of iterations of a running loop with no disconnect
requested, a second `Connect` from any caller starts no loop, leaves the flag true,
and, when it returns, has taken the join path (it started the notifier goroutine). -/
theorem Connect_twice_one_monitor (fuel1 fuel2 fuelL : Nat) (uri1 uri2 uriL : String)
    (ch1 ch2 chL : Option Nat) (envs : List CycleEnv) (nL : Bool) (w w1 : World)
    (r1 : Option GoError) (h1 : Connect fuel1 uri1 ch1 w = (Res.ok r1, w1)) :
    (∀ (fuel0 : Nat) (w0 : World),
        monitorsStarted (Connect fuel0 uri1 ch1 w0).2.trace
          = monitorsStarted w0.trace
            + if (Connect fuel0 uri1 ch1 w0).1 = Res.ok none
                  ∧ w0.client.isMonitoringConnection = false then 1 else 0)
    ∧ w1.client.isMonitoringConnection = true
    ∧ monitorsStarted
        (Connect fuel2 uri2 ch2
          (monitorLoop fuelL uriL chL (quietTurns envs) (LoopState.running nL) w1).2).2.trace
        = monitorsStarted w1.trace
    ∧ (Connect fuel2 uri2 ch2
          (monitorLoop fuelL uriL chL (quietTurns envs)
            (LoopState.running nL) w1).2).2.client.isMonitoringConnection = true
    ∧ ∀ r2, (Connect fuel2 uri2 ch2
          (monitorLoop fuelL uriL chL (quietTurns envs) (LoopState.running nL) w1).2).1
          = Res.ok r2 →
        (Connect fuel2 uri2 ch2
          (monitorLoop fuelL uriL chL (quietTurns envs) (LoopState.running nL) w1).2).2.trace
        = (monitorLoop fuelL uriL chL (quietTurns envs) (LoopState.running nL) w1).2.trace
            ++ [Event.spawnNotifier ch2] := by
  obtain ⟨-, hd, h3⟩ := Connect_returned fuel1 uri1 ch1 w w1 r1 h1
  have hd1 : w1.client.isDisconnecting = false := by
    rcases h3 with ⟨-, rfl⟩ | ⟨-, -, rfl⟩ <;> exact hd
  have hs1 : w1.client.shouldDisconnect = false := by
    rcases h3 with ⟨-, rfl⟩ | ⟨-, -, rfl⟩ <;> rfl
  have hm1 : w1.client.isMonitoringConnection = true := by
    rcases h3 with ⟨-, rfl⟩ | ⟨hm, -, rfl⟩
    · rfl
    · exact hm
  obtain ⟨q1, q2, q3⟩ := monitorLoop_quiet fuelL uriL chL envs nL w1 hd1 hs1 hm1
  have hL := monitorLoop_monitorsStarted fuelL uriL chL (quietTurns envs)
    (LoopState.running nL) w1
  refine ⟨fun fuel0 w0 => Connect_monitorsStarted fuel0 uri1 ch1 w0, hm1, ?_, ?_, ?_⟩
  · rw [Connect_monitorsStarted, hL, q3]
    simp
  · exact Connect_keeps_monitoring _ _ _ _ q3
  · intro r2 hr2
    rcases hc : Connect fuel2 uri2 ch2
      (monitorLoop fuelL uriL chL (quietTurns envs) (LoopState.running nL) w1).2 with ⟨r, w2⟩
    rw [hc] at hr2
    simp only at hr2
    subst hr2
    obtain ⟨-, -, h4⟩ := Connect_returned _ _ _ _ _ _ hc
    rcases h4 with ⟨hm, -⟩ | ⟨-, -, rfl⟩
    · rw [q3] at hm; cases hm
    · rfl

/-- C4, witness: the first `Connect` of the process, one healthy cycle of its loop, and a
second `Connect`: one monitor was started in all. -/
theorem Connect_twice_one_monitor_witness :
    Connect 1 "srv" (some 0) World.init = (Res.ok none, afterFirstConnect)
      ∧ monitorsStarted
          (Connect 1 "srv" (some 1)
            (monitorLoop 1 "srv" (some 0) (quietTurns [healthy]) (LoopState.running false)
              afterFirstConnect).2).2.trace
        = monitorsStarted afterFirstConnect.trace :=
  ⟨rfl, (Connect_twice_one_monitor 1 1 1 "srv" "srv" "srv" (some 0) (some 1) (some 0)
    [healthy] false World.init afterFirstConnect none rfl).2.2.1⟩

/-! ## C5: at most one signal per `Connect` call -/

/-- C5: for the monitor loop started by one `Connect` call with channel `k` (its `notified`
starts false), over every schedule of iterations (any dial, probe, parse and teardown
answers, with any `Disconnect` and `GetClient` calls in between) and from every world, at
most one signal is sent on `k`. -/
theorem notification_at_most_once (fuel : Nat) (uri : String) (k : Nat) (turns : List Turn)
    (w : World) :
    signalsOn k (monitorLoop fuel uri (some k) turns (LoopState.running false) w).2.trace
      ≤ signalsOn k w.trace + 1 := by
  have h := monitorLoop_signals fuel uri (some k) k turns (LoopState.running false) w
  simpa using h

/-! ## C6: the first successful connection is notified -/

/-- C6, the code at the failing input: the loop started by the first `Connect`, with
channel `0`, runs a cycle in which the dial and the probe succeed, so connectivity
changes from not connected to connected, but `connstring.ParseAndValidate` (models.go
158) returns an error: the cycle returns with the state connected on handle `7` and
`notified` still false, and no signal has been sent, neither in that cycle nor in the
two healthy cycles that follow; the notifier goroutine of the join path (models.go
188-193), run in that same state, does send. -/
theorem notification_lost_when_uri_unparsed :
    World.init.client.isConnected = false
    ∧ (monitorLoop 1 "mongodb+srv://db.example.net" (some 0) (quietTurns [parseFails])
        (LoopState.running false) World.init).1 = Res.ok (LoopState.running false)
    ∧ (monitorLoop 1 "mongodb+srv://db.example.net" (some 0) (quietTurns [parseFails])
        (LoopState.running false) World.init).2.client.isConnected = true
    ∧ (monitorLoop 1 "mongodb+srv://db.example.net" (some 0) (quietTurns [parseFails])
        (LoopState.running false) World.init).2.client.c = some 7
    ∧ signalsOn 0 (monitorLoop 1 "mongodb+srv://db.example.net" (some 0)
        (quietTurns [parseFails]) (LoopState.running false) World.init).2.trace = 0
    ∧ (monitorLoop 1 "mongodb+srv://db.example.net" (some 0)
        (quietTurns [parseFails, healthy, healthy])
        (LoopState.running false) World.init).1 = Res.ok (LoopState.running false)
    ∧ signalsOn 0 (monitorLoop 1 "mongodb+srv://db.example.net" (some 0)
        (quietTurns [parseFails, healthy, healthy])
        (LoopState.running false) World.init).2.trace = 0
    ∧ signalsOn 0 (joinNotifier (some 0) false
        (monitorLoop 1 "mongodb+srv://db.example.net" (some 0) (quietTurns [parseFails])
          (LoopState.running false) World.init).2).2.trace = 1 := by
  decide

/-- When the URI parses: in the loop started by one `Connect` call with a non-nil channel
`k`, a cycle sends a signal only if in it connectivity changes from not connected to
connected and the URI parses; and on a cycle in which the state is not connected, the
dial and the probe succeed and the URI parses, when the loop has sent no signal before,
exactly one signal is sent on `k`, the state is connected with the dialed handle, and
`notified` becomes true. -/
theorem first_connection_notifies (fuel : Nat) (uri : String) (k : Nat) (pre : List Turn)
    (w w1 : World) (n : Bool) (env : CycleEnv) (h : Handle) (hosts : List String)
    (hw : w.client.isDisconnecting = false)
    (hrun : monitorLoop (fuel + 1) uri (some k) pre (LoopState.running false) w
        = (Res.ok (LoopState.running n), w1))
    (hquiet : signalsOn k w1.trace = signalsOn k w.trace)
    (hnc : w1.client.isConnected = false)
    (hdial : env.dialed = Except.ok h) (hping : env.pingErr = none)
    (hparse : env.parsed = Except.ok hosts) :
    (monitorCycle (fuel + 1) uri (some k) env n w1).1 = Res.ok true
    ∧ (monitorCycle (fuel + 1) uri (some k) env n w1).2.client.isConnected = true
    ∧ (monitorCycle (fuel + 1) uri (some k) env n w1).2.client.c = some h
    ∧ signalsOn k (monitorCycle (fuel + 1) uri (some k) env n w1).2.trace
        = signalsOn k w1.trace + 1
    ∧ ∀ (env2 : CycleEnv) (n2 : Bool) (w2 : World), w2.client.isDisconnecting = false →
        signalsOn k (monitorCycle (fuel + 1) uri (some k) env2 n2 w2).2.trace
          ≠ signalsOn k w2.trace →
        w2.client.isConnected = false
        ∧ (monitorCycle (fuel + 1) uri (some k) env2 n2 w2).2.client.isConnected = true
        ∧ ∃ hosts2, env2.parsed = Except.ok hosts2 := by
  obtain ⟨hd1, -, hs⟩ := monitorLoop_running (fuel + 1) uri (some k) pre false n w w1 hw hrun
  have hn : n = false := by
    have := hs k
    rw [hquiet] at this
    cases n with
    | false => rfl
    | true => simp at this
  subst hn
  have hdl : (afterDial env w1.client).isDisconnecting = false := by
    rw [afterDial_isDisconnecting]; exact hd1
  have hc : (afterDial env w1.client).c = some h := by
    simp [afterDial, hnc, hdial]
  have hcyc : monitorCycle (fuel + 1) uri (some k) env false w1
      = cycleProbe (fuel + 1) (some k) env false false
          { client := afterDial env w1.client, trace := w1.trace ++ [Event.dial uri] } := by
    simp [monitorCycle, Bind.bind, Prog.bind, cycleDial_ready fuel uri env w1 hd1, hnc]
  refine ⟨?_, ?_, ?_, ?_, ?_⟩
  · rw [hcyc, cycleProbe_pingOk fuel (some k) env false false _ h hdl hc hping]
    simp [hparse]
  · rw [hcyc, cycleProbe_pingOk fuel (some k) env false false _ h hdl hc hping]
  · rw [hcyc, cycleProbe_pingOk fuel (some k) env false false _ h hdl hc hping]
    exact hc
  · rw [hcyc, cycleProbe_pingOk fuel (some k) env false false _ h hdl hc hping]
    simp [hparse, signalsOn_append, signalsOn_cons, signalsOn_nil]
  · intro env2 n2 w2 hw2 hne
    obtain ⟨n3, g1, g2, g3, g4, g5, g6⟩ := monitorCycle_ready fuel uri (some k) env2 n2 w2 hw2
    rw [g2]
    apply g6
    · by_contra hcon
      apply hne
      rw [g4 k]
      simp [hcon]
    · by_contra hcon
      apply hne
      rw [g4 k]
      simp [hcon]

/-- The first cycle of the first loop of the process, with a healthy driver, notifies. -/
theorem first_connection_notifies_witness :
    monitorLoop 1 "srv" (some 0) [] (LoopState.running false) World.init
        = (Res.ok (LoopState.running false), World.init)
      ∧ (monitorCycle 1 "srv" (some 0) healthy false World.init).1 = Res.ok true
      ∧ signalsOn 0 (monitorCycle 1 "srv" (some 0) healthy false World.init).2.trace
          = signalsOn 0 World.init.trace + 1 :=
  ⟨rfl,
   (first_connection_notifies 0 "srv" 0 [] World.init World.init false healthy 7 ["db"]
      rfl rfl rfl rfl rfl rfl rfl).1,
   (first_connection_notifies 0 "srv" 0 [] World.init World.init false healthy 7 ["db"]
      rfl rfl rfl rfl rfl rfl rfl).2.2.2.1⟩

/-! ## The CRUD helpers on a state that is not connected -/

theorem driverCalls_append (xs ys : List Event) :
    driverCalls (xs ++ ys) = driverCalls xs + driverCalls ys := by
  simp [driverCalls]

theorem driverCalls_replicate_sleep (n s : Nat) :
    driverCalls (List.replicate n (Event.sleep s)) = 0 := by
  induction n with
  | zero => rfl
  | succ m ih =>
    simp only [List.replicate_succ, driverCalls, List.countP_cons] at ih ⊢
    simp [ih, Event.isDriverCall]

theorem FindOne_notConnected (fuel : Nat) (m : String × String) (query : Nat) (decodeErr : Option GoError)
    (w : World) (hc : w.client.isConnected = false) :
    (w.client.isDisconnecting = false →
        FindOne (fuel + 1) m query decodeErr w = (Res.ok (false, some GoError.ErrNoMongoConnection), w))
    ∧ (w.client.isDisconnecting = true → (FindOne fuel m query decodeErr w).1 = Res.blocked)
    ∧ driverCalls (FindOne fuel m query decodeErr w).2.trace = driverCalls w.trace := by
  have hready : w.client.isDisconnecting = false →
      FindOne (fuel + 1) m query decodeErr w = (Res.ok (false, some GoError.ErrNoMongoConnection), w) := by
    intro hd
    simp [FindOne, getIsConnected_ready fuel w hd, hc, Bind.bind, Prog.bind, Pure.pure,
      Prog.pure]
  have hstuck : ∀ f : Nat, w.client.isDisconnecting = true →
      FindOne f m query decodeErr w
        = (Res.blocked, { w with trace := w.trace ++ List.replicate f (Event.sleep 1) }) := by
    intro f hd
    simp [FindOne, getIsConnected_stuck f w hd, Bind.bind, Prog.bind]
  refine ⟨hready, fun hd => by rw [hstuck fuel hd], ?_⟩
  cases hd : w.client.isDisconnecting with
  | true =>
    rw [hstuck fuel hd]
    simp [driverCalls_append, driverCalls_replicate_sleep]
  | false =>
    cases fuel with
    | zero => rfl
    | succ f =>
      have : FindOne (f + 1) m query decodeErr w = (Res.ok (false, some GoError.ErrNoMongoConnection), w) := by
        simp [FindOne, getIsConnected_ready f w hd, hc, Bind.bind, Prog.bind, Pure.pure,
          Prog.pure]
      rw [this]

theorem FindOneWithModel_notConnected (fuel : Nat) (m : String × String) (i d : Nat) (decodeErr : Option GoError)
    (w : World) (hc : w.client.isConnected = false) :
    (w.client.isDisconnecting = false →
        FindOneWithModel (fuel + 1) m i d decodeErr w = (Res.ok (i, false, some GoError.ErrNoMongoConnection), w))
    ∧ (w.client.isDisconnecting = true → (FindOneWithModel fuel m i d decodeErr w).1 = Res.blocked)
    ∧ driverCalls (FindOneWithModel fuel m i d decodeErr w).2.trace = driverCalls w.trace := by
  have hready : w.client.isDisconnecting = false →
      FindOneWithModel (fuel + 1) m i d decodeErr w = (Res.ok (i, false, some GoError.ErrNoMongoConnection), w) := by
    intro hd
    simp [FindOneWithModel, getIsConnected_ready fuel w hd, hc, Bind.bind, Prog.bind, Pure.pure,
      Prog.pure]
  have hstuck : ∀ f : Nat, w.client.isDisconnecting = true →
      FindOneWithModel f m i d decodeErr w
        = (Res.blocked, { w with trace := w.trace ++ List.replicate f (Event.sleep 1) }) := by
    intro f hd
    simp [FindOneWithModel, getIsConnected_stuck f w hd, Bind.bind, Prog.bind]
  refine ⟨hready, fun hd => by rw [hstuck fuel hd], ?_⟩
  cases hd : w.client.isDisconnecting with
  | true =>
    rw [hstuck fuel hd]
    simp [driverCalls_append, driverCalls_replicate_sleep]
  | false =>
    cases fuel with
    | zero => rfl
    | succ f =>
      have : FindOneWithModel (f + 1) m i d decodeErr w = (Res.ok (i, false, some GoError.ErrNoMongoConnection), w) := by
        simp [FindOneWithModel, getIsConnected_ready f w hd, hc, Bind.bind, Prog.bind, Pure.pure,
          Prog.pure]
      rw [this]

theorem UpdateOne_notConnected (fuel : Nat) (m : String × String) (filter update : Nat) (res : Except GoError Nat)
    (w : World) (hc : w.client.isConnected = false) :
    (w.client.isDisconnecting = false →
        UpdateOne (fuel + 1) m filter update res w = (Res.ok (none, some GoError.ErrNoMongoConnection), w))
    ∧ (w.client.isDisconnecting = true → (UpdateOne fuel m filter update res w).1 = Res.blocked)
    ∧ driverCalls (UpdateOne fuel m filter update res w).2.trace = driverCalls w.trace := by
  have hready : w.client.isDisconnecting = false →
      UpdateOne (fuel + 1) m filter update res w = (Res.ok (none, some GoError.ErrNoMongoConnection), w) := by
    intro hd
    simp [UpdateOne, getIsConnected_ready fuel w hd, hc, Bind.bind, Prog.bind, Pure.pure,
      Prog.pure]
  have hstuck : ∀ f : Nat, w.client.isDisconnecting = true →
      UpdateOne f m filter update res w
        = (Res.blocked, { w with trace := w.trace ++ List.replicate f (Event.sleep 1) }) := by
    intro f hd
    simp [UpdateOne, getIsConnected_stuck f w hd, Bind.bind, Prog.bind]
  refine ⟨hready, fun hd => by rw [hstuck fuel hd], ?_⟩
  cases hd : w.client.isDisconnecting with
  | true =>
    rw [hstuck fuel hd]
    simp [driverCalls_append, driverCalls_replicate_sleep]
  | false =>
    cases fuel with
    | zero => rfl
    | succ f =>
      have : UpdateOne (f + 1) m filter update res w = (Res.ok (none, some GoError.ErrNoMongoConnection), w) := by
        simp [UpdateOne, getIsConnected_ready f w hd, hc, Bind.bind, Prog.bind, Pure.pure,
          Prog.pure]
      rw [this]

theorem UpdateMany_notConnected (fuel : Nat) (m : String × String) (filter update : Nat) (res : Except GoError Nat)
    (w : World) (hc : w.client.isConnected = false) :
    (w.client.isDisconnecting = false →
        UpdateMany (fuel + 1) m filter update res w = (Res.ok (none, some GoError.ErrNoMongoConnection), w))
    ∧ (w.client.isDisconnecting = true → (UpdateMany fuel m filter update res w).1 = Res.blocked)
    ∧ driverCalls (UpdateMany fuel m filter update res w).2.trace = driverCalls w.trace := by
  have hready : w.client.isDisconnecting = false →
      UpdateMany (fuel + 1) m filter update res w = (Res.ok (none, some GoError.ErrNoMongoConnection), w) := by
    intro hd
    simp [UpdateMany, getIsConnected_ready fuel w hd, hc, Bind.bind, Prog.bind, Pure.pure,
      Prog.pure]
  have hstuck : ∀ f : Nat, w.client.isDisconnecting = true →
      UpdateMany f m filter update res w
        = (Res.blocked, { w with trace := w.trace ++ List.replicate f (Event.sleep 1) }) := by
    intro f hd
    simp [UpdateMany, getIsConnected_stuck f w hd, Bind.bind, Prog.bind]
  refine ⟨hready, fun hd => by rw [hstuck fuel hd], ?_⟩
  cases hd : w.client.isDisconnecting with
  | true =>
    rw [hstuck fuel hd]
    simp [driverCalls_append, driverCalls_replicate_sleep]
  | false =>
    cases fuel with
    | zero => rfl
    | succ f =>
      have : UpdateMany (f + 1) m filter update res w = (Res.ok (none, some GoError.ErrNoMongoConnection), w) := by
        simp [UpdateMany, getIsConnected_ready f w hd, hc, Bind.bind, Prog.bind, Pure.pure,
          Prog.pure]
      rw [this]

theorem AddToArray_notConnected (fuel : Nat) (m : String × String) (filter update : Nat) (res : Except GoError Nat)
    (w : World) (hc : w.client.isConnected = false) :
    (w.client.isDisconnecting = false →
        AddToArray (fuel + 1) m filter update res w = (Res.ok (none, some GoError.ErrNoMongoConnection), w))
    ∧ (w.client.isDisconnecting = true → (AddToArray fuel m filter update res w).1 = Res.blocked)
    ∧ driverCalls (AddToArray fuel m filter update res w).2.trace = driverCalls w.trace := by
  have hready : w.client.isDisconnecting = false →
      AddToArray (fuel + 1) m filter update res w = (Res.ok (none, some GoError.ErrNoMongoConnection), w) := by
    intro hd
    simp [AddToArray, getIsConnected_ready fuel w hd, hc, Bind.bind, Prog.bind, Pure.pure,
      Prog.pure]
  have hstuck : ∀ f : Nat, w.client.isDisconnecting = true →
      AddToArray f m filter update res w
        = (Res.blocked, { w with trace := w.trace ++ List.replicate f (Event.sleep 1) }) := by
    intro f hd
    simp [AddToArray, getIsConnected_stuck f w hd, Bind.bind, Prog.bind]
  refine ⟨hready, fun hd => by rw [hstuck fuel hd], ?_⟩
  cases hd : w.client.isDisconnecting with
  | true =>
    rw [hstuck fuel hd]
    simp [driverCalls_append, driverCalls_replicate_sleep]
  | false =>
    cases fuel with
    | zero => rfl
    | succ f =>
      have : AddToArray (f + 1) m filter update res w = (Res.ok (none, some GoError.ErrNoMongoConnection), w) := by
        simp [AddToArray, getIsConnected_ready f w hd, hc, Bind.bind, Prog.bind, Pure.pure,
          Prog.pure]
      rw [this]

theorem DeleteOne_notConnected (fuel : Nat) (m : String × String) (d : Nat) (res : Except GoError Nat)
    (w : World) (hc : w.client.isConnected = false) :
    (w.client.isDisconnecting = false →
        DeleteOne (fuel + 1) m d res w = (Res.ok (some GoError.ErrNoMongoConnection), w))
    ∧ (w.client.isDisconnecting = true → (DeleteOne fuel m d res w).1 = Res.blocked)
    ∧ driverCalls (DeleteOne fuel m d res w).2.trace = driverCalls w.trace := by
  have hready : w.client.isDisconnecting = false →
      DeleteOne (fuel + 1) m d res w = (Res.ok (some GoError.ErrNoMongoConnection), w) := by
    intro hd
    simp [DeleteOne, getIsConnected_ready fuel w hd, hc, Bind.bind, Prog.bind, Pure.pure,
      Prog.pure]
  have hstuck : ∀ f : Nat, w.client.isDisconnecting = true →
      DeleteOne f m d res w
        = (Res.blocked, { w with trace := w.trace ++ List.replicate f (Event.sleep 1) }) := by
    intro f hd
    simp [DeleteOne, getIsConnected_stuck f w hd, Bind.bind, Prog.bind]
  refine ⟨hready, fun hd => by rw [hstuck fuel hd], ?_⟩
  cases hd : w.client.isDisconnecting with
  | true =>
    rw [hstuck fuel hd]
    simp [driverCalls_append, driverCalls_replicate_sleep]
  | false =>
    cases fuel with
    | zero => rfl
    | succ f =>
      have : DeleteOne (f + 1) m d res w = (Res.ok (some GoError.ErrNoMongoConnection), w) := by
        simp [DeleteOne, getIsConnected_ready f w hd, hc, Bind.bind, Prog.bind, Pure.pure,
          Prog.pure]
      rw [this]

theorem DeleteMany_notConnected (fuel : Nat) (m : String × String) (d : Nat) (res : Except GoError Nat)
    (w : World) (hc : w.client.isConnected = false) :
    (w.client.isDisconnecting = false →
        DeleteMany (fuel + 1) m d res w = (Res.ok (some GoError.ErrNoMongoConnection), w))
    ∧ (w.client.isDisconnecting = true → (DeleteMany fuel m d res w).1 = Res.blocked)
    ∧ driverCalls (DeleteMany fuel m d res w).2.trace = driverCalls w.trace := by
  have hready : w.client.isDisconnecting = false →
      DeleteMany (fuel + 1) m d res w = (Res.ok (some GoError.ErrNoMongoConnection), w) := by
    intro hd
    simp [DeleteMany, getIsConnected_ready fuel w hd, hc, Bind.bind, Prog.bind, Pure.pure,
      Prog.pure]
  have hstuck : ∀ f : Nat, w.client.isDisconnecting = true →
      DeleteMany f m d res w
        = (Res.blocked, { w with trace := w.trace ++ List.replicate f (Event.sleep 1) }) := by
    intro f hd
    simp [DeleteMany, getIsConnected_stuck f w hd, Bind.bind, Prog.bind]
  refine ⟨hready, fun hd => by rw [hstuck fuel hd], ?_⟩
  cases hd : w.client.isDisconnecting with
  | true =>
    rw [hstuck fuel hd]
    simp [driverCalls_append, driverCalls_replicate_sleep]
  | false =>
    cases fuel with
    | zero => rfl
    | succ f =>
      have : DeleteMany (f + 1) m d res w = (Res.ok (some GoError.ErrNoMongoConnection), w) := by
        simp [DeleteMany, getIsConnected_ready f w hd, hc, Bind.bind, Prog.bind, Pure.pure,
          Prog.pure]
      rw [this]

theorem DeleteAll_notConnected (fuel : Nat) (m : String × String) (dropErr : Option GoError)
    (w : World) (hc : w.client.isConnected = false) :
    (w.client.isDisconnecting = false →
        DeleteAll (fuel + 1) m dropErr w = (Res.ok (some GoError.ErrNoMongoConnection), w))
    ∧ (w.client.isDisconnecting = true → (DeleteAll fuel m dropErr w).1 = Res.blocked)
    ∧ driverCalls (DeleteAll fuel m dropErr w).2.trace = driverCalls w.trace := by
  have hready : w.client.isDisconnecting = false →
      DeleteAll (fuel + 1) m dropErr w = (Res.ok (some GoError.ErrNoMongoConnection), w) := by
    intro hd
    simp [DeleteAll, getIsConnected_ready fuel w hd, hc, Bind.bind, Prog.bind, Pure.pure,
      Prog.pure]
  have hstuck : ∀ f : Nat, w.client.isDisconnecting = true →
      DeleteAll f m dropErr w
        = (Res.blocked, { w with trace := w.trace ++ List.replicate f (Event.sleep 1) }) := by
    intro f hd
    simp [DeleteAll, getIsConnected_stuck f w hd, Bind.bind, Prog.bind]
  refine ⟨hready, fun hd => by rw [hstuck fuel hd], ?_⟩
  cases hd : w.client.isDisconnecting with
  | true =>
    rw [hstuck fuel hd]
    simp [driverCalls_append, driverCalls_replicate_sleep]
  | false =>
    cases fuel with
    | zero => rfl
    | succ f =>
      have : DeleteAll (f + 1) m dropErr w = (Res.ok (some GoError.ErrNoMongoConnection), w) := by
        simp [DeleteAll, getIsConnected_ready f w hd, hc, Bind.bind, Prog.bind, Pure.pure,
          Prog.pure]
      rw [this]

theorem InsertOne_notConnected (fuel : Nat) (m : String × String) (i : Nat) (res : Except GoError Nat)
    (w : World) (hc : w.client.isConnected = false) :
    (w.client.isDisconnecting = false →
        InsertOne (fuel + 1) m i res w = (Res.ok (none, some GoError.ErrNoMongoConnection), w))
    ∧ (w.client.isDisconnecting = true → (InsertOne fuel m i res w).1 = Res.blocked)
    ∧ driverCalls (InsertOne fuel m i res w).2.trace = driverCalls w.trace := by
  have hready : w.client.isDisconnecting = false →
      InsertOne (fuel + 1) m i res w = (Res.ok (none, some GoError.ErrNoMongoConnection), w) := by
    intro hd
    simp [InsertOne, getIsConnected_ready fuel w hd, hc, Bind.bind, Prog.bind, Pure.pure,
      Prog.pure]
  have hstuck : ∀ f : Nat, w.client.isDisconnecting = true →
      InsertOne f m i res w
        = (Res.blocked, { w with trace := w.trace ++ List.replicate f (Event.sleep 1) }) := by
    intro f hd
    simp [InsertOne, getIsConnected_stuck f w hd, Bind.bind, Prog.bind]
  refine ⟨hready, fun hd => by rw [hstuck fuel hd], ?_⟩
  cases hd : w.client.isDisconnecting with
  | true =>
    rw [hstuck fuel hd]
    simp [driverCalls_append, driverCalls_replicate_sleep]
  | false =>
    cases fuel with
    | zero => rfl
    | succ f =>
      have : InsertOne (f + 1) m i res w = (Res.ok (none, some GoError.ErrNoMongoConnection), w) := by
        simp [InsertOne, getIsConnected_ready f w hd, hc, Bind.bind, Prog.bind, Pure.pure,
          Prog.pure]
      rw [this]

theorem InsertMany_notConnected (fuel : Nat) (m : String × String) (docs : List Nat) (res : Except GoError (List Nat))
    (w : World) (hc : w.client.isConnected = false) :
    (w.client.isDisconnecting = false →
        InsertMany (fuel + 1) m docs res w = (Res.ok (none, some GoError.ErrNoMongoConnection), w))
    ∧ (w.client.isDisconnecting = true → (InsertMany fuel m docs res w).1 = Res.blocked)
    ∧ driverCalls (InsertMany fuel m docs res w).2.trace = driverCalls w.trace := by
  have hready : w.client.isDisconnecting = false →
      InsertMany (fuel + 1) m docs res w = (Res.ok (none, some GoError.ErrNoMongoConnection), w) := by
    intro hd
    simp [InsertMany, getIsConnected_ready fuel w hd, hc, Bind.bind, Prog.bind, Pure.pure,
      Prog.pure]
  have hstuck : ∀ f : Nat, w.client.isDisconnecting = true →
      InsertMany f m docs res w
        = (Res.blocked, { w with trace := w.trace ++ List.replicate f (Event.sleep 1) }) := by
    intro f hd
    simp [InsertMany, getIsConnected_stuck f w hd, Bind.bind, Prog.bind]
  refine ⟨hready, fun hd => by rw [hstuck fuel hd], ?_⟩
  cases hd : w.client.isDisconnecting with
  | true =>
    rw [hstuck fuel hd]
    simp [driverCalls_append, driverCalls_replicate_sleep]
  | false =>
    cases fuel with
    | zero => rfl
    | succ f =>
      have : InsertMany (f + 1) m docs res w = (Res.ok (none, some GoError.ErrNoMongoConnection), w) := by
        simp [InsertMany, getIsConnected_ready f w hd, hc, Bind.bind, Prog.bind, Pure.pure,
          Prog.pure]
      rw [this]

theorem CountDocuments_notConnected (fuel : Nat) (m : String × String) (filter : Nat) (res : Nat × Option GoError)
    (w : World) (hc : w.client.isConnected = false) :
    (w.client.isDisconnecting = false →
        CountDocuments (fuel + 1) m filter res w = (Res.ok (0, some GoError.ErrNoMongoConnection), w))
    ∧ (w.client.isDisconnecting = true → (CountDocuments fuel m filter res w).1 = Res.blocked)
    ∧ driverCalls (CountDocuments fuel m filter res w).2.trace = driverCalls w.trace := by
  have hready : w.client.isDisconnecting = false →
      CountDocuments (fuel + 1) m filter res w = (Res.ok (0, some GoError.ErrNoMongoConnection), w) := by
    intro hd
    simp [CountDocuments, getIsConnected_ready fuel w hd, hc, Bind.bind, Prog.bind, Pure.pure,
      Prog.pure]
  have hstuck : ∀ f : Nat, w.client.isDisconnecting = true →
      CountDocuments f m filter res w
        = (Res.blocked, { w with trace := w.trace ++ List.replicate f (Event.sleep 1) }) := by
    intro f hd
    simp [CountDocuments, getIsConnected_stuck f w hd, Bind.bind, Prog.bind]
  refine ⟨hready, fun hd => by rw [hstuck fuel hd], ?_⟩
  cases hd : w.client.isDisconnecting with
  | true =>
    rw [hstuck fuel hd]
    simp [driverCalls_append, driverCalls_replicate_sleep]
  | false =>
    cases fuel with
    | zero => rfl
    | succ f =>
      have : CountDocuments (f + 1) m filter res w = (Res.ok (0, some GoError.ErrNoMongoConnection), w) := by
        simp [CountDocuments, getIsConnected_ready f w hd, hc, Bind.bind, Prog.bind, Pure.pure,
          Prog.pure]
      rw [this]

theorem Find_notConnected (fuel : Nat) (m : String × String) (filter : Nat) (res : Option Nat × Option GoError)
    (w : World) (hc : w.client.isConnected = false) :
    (w.client.isDisconnecting = false →
        Find (fuel + 1) m filter res w = (Res.ok (none, some GoError.ErrNoMongoConnection), w))
    ∧ (w.client.isDisconnecting = true → (Find fuel m filter res w).1 = Res.blocked)
    ∧ driverCalls (Find fuel m filter res w).2.trace = driverCalls w.trace := by
  have hready : w.client.isDisconnecting = false →
      Find (fuel + 1) m filter res w = (Res.ok (none, some GoError.ErrNoMongoConnection), w) := by
    intro hd
    simp [Find, getIsConnected_ready fuel w hd, hc, Bind.bind, Prog.bind, Pure.pure,
      Prog.pure]
  have hstuck : ∀ f : Nat, w.client.isDisconnecting = true →
      Find f m filter res w
        = (Res.blocked, { w with trace := w.trace ++ List.replicate f (Event.sleep 1) }) := by
    intro f hd
    simp [Find, getIsConnected_stuck f w hd, Bind.bind, Prog.bind]
  refine ⟨hready, fun hd => by rw [hstuck fuel hd], ?_⟩
  cases hd : w.client.isDisconnecting with
  | true =>
    rw [hstuck fuel hd]
    simp [driverCalls_append, driverCalls_replicate_sleep]
  | false =>
    cases fuel with
    | zero => rfl
    | succ f =>
      have : Find (f + 1) m filter res w = (Res.ok (none, some GoError.ErrNoMongoConnection), w) := by
        simp [Find, getIsConnected_ready f w hd, hc, Bind.bind, Prog.bind, Pure.pure,
          Prog.pure]
      rw [this]

theorem Distinct_notConnected (fuel : Nat) (m : String × String) (field : String) (filter : Nat) (res : Option (List Nat) × Option GoError)
    (w : World) (hc : w.client.isConnected = false) :
    (w.client.isDisconnecting = false →
        Distinct (fuel + 1) m field filter res w = (Res.ok (none, some GoError.ErrNoMongoConnection), w))
    ∧ (w.client.isDisconnecting = true → (Distinct fuel m field filter res w).1 = Res.blocked)
    ∧ driverCalls (Distinct fuel m field filter res w).2.trace = driverCalls w.trace := by
  have hready : w.client.isDisconnecting = false →
      Distinct (fuel + 1) m field filter res w = (Res.ok (none, some GoError.ErrNoMongoConnection), w) := by
    intro hd
    simp [Distinct, getIsConnected_ready fuel w hd, hc, Bind.bind, Prog.bind, Pure.pure,
      Prog.pure]
  have hstuck : ∀ f : Nat, w.client.isDisconnecting = true →
      Distinct f m field filter res w
        = (Res.blocked, { w with trace := w.trace ++ List.replicate f (Event.sleep 1) }) := by
    intro f hd
    simp [Distinct, getIsConnected_stuck f w hd, Bind.bind, Prog.bind]
  refine ⟨hready, fun hd => by rw [hstuck fuel hd], ?_⟩
  cases hd : w.client.isDisconnecting with
  | true =>
    rw [hstuck fuel hd]
    simp [driverCalls_append, driverCalls_replicate_sleep]
  | false =>
    cases fuel with
    | zero => rfl
    | succ f =>
      have : Distinct (f + 1) m field filter res w = (Res.ok (none, some GoError.ErrNoMongoConnection), w) := by
        simp [Distinct, getIsConnected_ready f w hd, hc, Bind.bind, Prog.bind, Pure.pure,
          Prog.pure]
      rw [this]

theorem UpdateWithUnsetKey_notConnected (fuel : Nat) (m : String × String) (filter update : Nat) (res : Except GoError Nat)
    (w : World) (hc : w.client.isConnected = false) :
    (w.client.isDisconnecting = false →
        UpdateWithUnsetKey (fuel + 1) m filter update res w = (Res.ok (none, some GoError.ErrNoMongoConnection), w))
    ∧ (w.client.isDisconnecting = true → (UpdateWithUnsetKey fuel m filter update res w).1 = Res.blocked)
    ∧ driverCalls (UpdateWithUnsetKey fuel m filter update res w).2.trace = driverCalls w.trace := by
  have hready : w.client.isDisconnecting = false →
      UpdateWithUnsetKey (fuel + 1) m filter update res w = (Res.ok (none, some GoError.ErrNoMongoConnection), w) := by
    intro hd
    simp [UpdateWithUnsetKey, getIsConnected_ready fuel w hd, hc, Bind.bind, Prog.bind, Pure.pure,
      Prog.pure]
  have hstuck : ∀ f : Nat, w.client.isDisconnecting = true →
      UpdateWithUnsetKey f m filter update res w
        = (Res.blocked, { w with trace := w.trace ++ List.replicate f (Event.sleep 1) }) := by
    intro f hd
    simp [UpdateWithUnsetKey, getIsConnected_stuck f w hd, Bind.bind, Prog.bind]
  refine ⟨hready, fun hd => by rw [hstuck fuel hd], ?_⟩
  cases hd : w.client.isDisconnecting with
  | true =>
    rw [hstuck fuel hd]
    simp [driverCalls_append, driverCalls_replicate_sleep]
  | false =>
    cases fuel with
    | zero => rfl
    | succ f =>
      have : UpdateWithUnsetKey (f + 1) m filter update res w = (Res.ok (none, some GoError.ErrNoMongoConnection), w) := by
        simp [UpdateWithUnsetKey, getIsConnected_ready f w hd, hc, Bind.bind, Prog.bind, Pure.pure,
          Prog.pure]
      rw [this]

theorem Aggregate_notConnected (m : String × String) (d : Nat)
    (res : Option Nat × Option GoError) (w : World) (hc : w.client.isConnected = false) :
    Aggregate m d res w = (Res.ok (none, some GoError.ErrNoMongoConnection), w) := by
  simp [Aggregate, readClient, hc, Bind.bind, Prog.bind, Pure.pure, Prog.pure]

/-! ## The CRUD helpers check connectivity first -/

/-- In every state with `isConnected` false and `isDisconnecting` false and for every
argument, each CRUD helper returns exactly `ErrNoMongoConnection` as its error (with its
zero value) and leaves the world untouched, so no driver operation is performed. In every
state with `isConnected` false no helper calls the driver. -/
theorem crud_checks_connectivity (fuel : Nat) (w : World)
    (hc : w.client.isConnected = false) (hd : w.client.isDisconnecting = false)
    (m : String × String) (x y : Nat) (field : String) (docs : List Nat)
    (oe : Option GoError) (en : Except GoError Nat) (el : Except GoError (List Nat))
    (pn : Nat × Option GoError) (po : Option Nat × Option GoError)
    (pl : Option (List Nat) × Option GoError) :
    FindOne (fuel + 1) m x oe w = (Res.ok (false, some GoError.ErrNoMongoConnection), w)
    ∧ FindOneWithModel (fuel + 1) m x y oe w = (Res.ok (x, false, some GoError.ErrNoMongoConnection), w)
    ∧ UpdateOne (fuel + 1) m x y en w = (Res.ok (none, some GoError.ErrNoMongoConnection), w)
    ∧ UpdateMany (fuel + 1) m x y en w = (Res.ok (none, some GoError.ErrNoMongoConnection), w)
    ∧ AddToArray (fuel + 1) m x y en w = (Res.ok (none, some GoError.ErrNoMongoConnection), w)
    ∧ DeleteOne (fuel + 1) m x en w = (Res.ok (some GoError.ErrNoMongoConnection), w)
    ∧ DeleteMany (fuel + 1) m x en w = (Res.ok (some GoError.ErrNoMongoConnection), w)
    ∧ DeleteAll (fuel + 1) m oe w = (Res.ok (some GoError.ErrNoMongoConnection), w)
    ∧ InsertOne (fuel + 1) m x en w = (Res.ok (none, some GoError.ErrNoMongoConnection), w)
    ∧ InsertMany (fuel + 1) m docs el w = (Res.ok (none, some GoError.ErrNoMongoConnection), w)
    ∧ CountDocuments (fuel + 1) m x pn w = (Res.ok (0, some GoError.ErrNoMongoConnection), w)
    ∧ Find (fuel + 1) m x po w = (Res.ok (none, some GoError.ErrNoMongoConnection), w)
    ∧ Distinct (fuel + 1) m field x pl w = (Res.ok (none, some GoError.ErrNoMongoConnection), w)
    ∧ UpdateWithUnsetKey (fuel + 1) m x y en w = (Res.ok (none, some GoError.ErrNoMongoConnection), w)
    ∧ Aggregate m x po w = (Res.ok (none, some GoError.ErrNoMongoConnection), w)
    ∧ ∀ (fuel2 : Nat) (w2 : World), w2.client.isConnected = false →
        (driverCalls (FindOne fuel2 m x oe w2).2.trace = driverCalls w2.trace
        ∧ driverCalls (FindOneWithModel fuel2 m x y oe w2).2.trace = driverCalls w2.trace
        ∧ driverCalls (UpdateOne fuel2 m x y en w2).2.trace = driverCalls w2.trace
        ∧ driverCalls (UpdateMany fuel2 m x y en w2).2.trace = driverCalls w2.trace
        ∧ driverCalls (AddToArray fuel2 m x y en w2).2.trace = driverCalls w2.trace
        ∧ driverCalls (DeleteOne fuel2 m x en w2).2.trace = driverCalls w2.trace
        ∧ driverCalls (DeleteMany fuel2 m x en w2).2.trace = driverCalls w2.trace
        ∧ driverCalls (DeleteAll fuel2 m oe w2).2.trace = driverCalls w2.trace
        ∧ driverCalls (InsertOne fuel2 m x en w2).2.trace = driverCalls w2.trace
        ∧ driverCalls (InsertMany fuel2 m docs el w2).2.trace = driverCalls w2.trace
        ∧ driverCalls (CountDocuments fuel2 m x pn w2).2.trace = driverCalls w2.trace
        ∧ driverCalls (Find fuel2 m x po w2).2.trace = driverCalls w2.trace
        ∧ driverCalls (Distinct fuel2 m field x pl w2).2.trace = driverCalls w2.trace
        ∧ driverCalls (UpdateWithUnsetKey fuel2 m x y en w2).2.trace = driverCalls w2.trace
        ∧ driverCalls (Aggregate m x po w2).2.trace = driverCalls w2.trace) := by
  refine ⟨(FindOne_notConnected fuel m x oe w hc).1 hd,
    (FindOneWithModel_notConnected fuel m x y oe w hc).1 hd,
    (UpdateOne_notConnected fuel m x y en w hc).1 hd,
    (UpdateMany_notConnected fuel m x y en w hc).1 hd,
    (AddToArray_notConnected fuel m x y en w hc).1 hd,
    (DeleteOne_notConnected fuel m x en w hc).1 hd,
    (DeleteMany_notConnected fuel m x en w hc).1 hd,
    (DeleteAll_notConnected fuel m oe w hc).1 hd,
    (InsertOne_notConnected fuel m x en w hc).1 hd,
    (InsertMany_notConnected fuel m docs el w hc).1 hd,
    (CountDocuments_notConnected fuel m x pn w hc).1 hd,
    (Find_notConnected fuel m x po w hc).1 hd,
    (Distinct_notConnected fuel m field x pl w hc).1 hd,
    (UpdateWithUnsetKey_notConnected fuel m x y en w hc).1 hd,
    Aggregate_notConnected m x po w hc, ?_⟩
  intro fuel2 w2 hc2
  refine ⟨(FindOne_notConnected fuel2 m x oe w2 hc2).2.2,
    (FindOneWithModel_notConnected fuel2 m x y oe w2 hc2).2.2,
    (UpdateOne_notConnected fuel2 m x y en w2 hc2).2.2,
    (UpdateMany_notConnected fuel2 m x y en w2 hc2).2.2,
    (AddToArray_notConnected fuel2 m x y en w2 hc2).2.2,
    (DeleteOne_notConnected fuel2 m x en w2 hc2).2.2,
    (DeleteMany_notConnected fuel2 m x en w2 hc2).2.2,
    (DeleteAll_notConnected fuel2 m oe w2 hc2).2.2,
    (InsertOne_notConnected fuel2 m x en w2 hc2).2.2,
    (InsertMany_notConnected fuel2 m docs el w2 hc2).2.2,
    (CountDocuments_notConnected fuel2 m x pn w2 hc2).2.2,
    (Find_notConnected fuel2 m x po w2 hc2).2.2,
    (Distinct_notConnected fuel2 m field x pl w2 hc2).2.2,
    (UpdateWithUnsetKey_notConnected fuel2 m x y en w2 hc2).2.2,
    ?_⟩
  rw [Aggregate_notConnected m x po w2 hc2]

/-! ## What each operation can do to the handle and to `isConnected` -/

theorem setIsConnected_zero (conn : Bool) (w : World) :
    setIsConnected 0 conn w = (Res.blocked, w) := rfl

theorem setIsConnected_stuck (fuel : Nat) (conn : Bool) (w : World)
    (h : w.client.isDisconnecting = true) :
    setIsConnected fuel conn w
      = (Res.blocked, { w with trace := w.trace ++ List.replicate fuel (Event.sleep 1) }) := by
  simp [setIsConnected, getIsConnected_stuck fuel w h, Bind.bind, Prog.bind]

theorem connect_zero (uri : String) (dialed : Except GoError Handle) (w : World) :
    connect 0 uri dialed w = (Res.blocked, w) := rfl

theorem connect_stuck (fuel : Nat) (uri : String) (dialed : Except GoError Handle) (w : World)
    (h : w.client.isDisconnecting = true) :
    connect fuel uri dialed w
      = (Res.blocked, { w with trace := w.trace ++ List.replicate fuel (Event.sleep 1) }) := by
  simp [connect, getIsConnected_stuck fuel w h, Bind.bind, Prog.bind]

theorem cycleDial_zero (uri : String) (env : CycleEnv) (w : World) :
    cycleDial 0 uri env w = (Res.blocked, w) := rfl

theorem connect_client (fuel : Nat) (uri : String) (dialed : Except GoError Handle)
    (w : World) :
    (connect fuel uri dialed w).2.client = w.client
    ∨ ∃ h, w.client.isConnected = false ∧ w.client.isDisconnecting = false
        ∧ (connect fuel uri dialed w).2.client = { w.client with c := some h } := by
  cases fuel with
  | zero => left; rfl
  | succ f =>
    cases hd : w.client.isDisconnecting with
    | true => left; rw [connect_stuck _ uri dialed w hd]
    | false =>
      rw [connect_ready f uri dialed w hd]
      cases hc : w.client.isConnected with
      | true => left; simp
      | false =>
        cases dialed with
        | error e => left; simp
        | ok h => right; exact ⟨h, rfl, rfl, by simp⟩

theorem cycleDial_client (fuel : Nat) (uri : String) (env : CycleEnv) (w : World) :
    (cycleDial fuel uri env w).2.client = w.client
    ∨ (w.client.isDisconnecting = false
        ∧ (cycleDial fuel uri env w).2.client = afterDial env w.client) := by
  cases fuel with
  | zero => left; rfl
  | succ f =>
    cases hd : w.client.isDisconnecting with
    | true => left; rw [cycleDial_stuck _ uri env w hd]
    | false => right; rw [cycleDial_ready f uri env w hd]; exact ⟨rfl, rfl⟩

theorem cycleProbe_client (fuel : Nat) (ch : Option Nat) (env : CycleEnv) (old n : Bool)
    (w : World) :
    (cycleProbe fuel ch env old n w).2.client = w.client
    ∨ (cycleProbe fuel ch env old n w).2.client = afterProbe env w.client := by
  obtain ⟨⟨c, ic, id, sd, im⟩, tr⟩ := w
  obtain ⟨d, p, de, pa⟩ := env
  cases id with
  | false =>
    cases fuel with
    | succ f =>
      right
      cases c with
      | none => rw [cycleProbe_noHandle f ch _ old n _ rfl rfl]; rfl
      | some hd =>
        cases p with
        | none => rw [cycleProbe_pingOk f ch _ old n _ hd rfl rfl rfl]; rfl
        | some e => rw [cycleProbe_pingFailed f ch _ old n _ hd e rfl rfl rfl]; rfl
    | zero =>
      cases c with
      | none =>
        left
        simp [cycleProbe, getClient, readClient, setIsConnected_zero, Bind.bind, Prog.bind,
          Pure.pure, Prog.pure]
      | some hd =>
        cases p with
        | none =>
          left
          simp [cycleProbe, probeSucceeded, ping, getClient, readClient, emit,
            setIsConnected_zero, Bind.bind, Prog.bind, Pure.pure, Prog.pure]
        | some e =>
          right
          simp [cycleProbe, probeFailed, ping, getClient, readClient, emit, disconnect_eq,
            getIsConnected_zero, afterProbe, Bind.bind, Prog.bind, Pure.pure, Prog.pure]
  | true =>
    cases c with
    | none =>
      left
      simp [cycleProbe, getClient, readClient, setIsConnected_stuck, Bind.bind, Prog.bind,
        Pure.pure, Prog.pure]
    | some hd =>
      cases p with
      | none =>
        left
        simp [cycleProbe, probeSucceeded, ping, getClient, readClient, emit,
          setIsConnected_stuck, Bind.bind, Prog.bind, Pure.pure, Prog.pure]
      | some e =>
        right
        cases fuel with
        | zero =>
          simp [cycleProbe, probeFailed, ping, getClient, readClient, emit, disconnect_eq,
            getIsConnected_zero, afterProbe, Bind.bind, Prog.bind, Pure.pure, Prog.pure]
        | succ f =>
          cases old <;>
            simp [cycleProbe, probeFailed, ping, getClient, readClient, emit, disconnect_eq,
              getIsConnected_ready, afterProbe, tornDown, Bind.bind, Prog.bind, Pure.pure,
              Prog.pure]

theorem monitorIter_client (fuel : Nat) (uri : String) (ch : Option Nat) (env : CycleEnv)
    (n : Bool) (w : World) :
    (monitorIter fuel uri ch env n w).2.client = w.client
    ∨ (w.client.isDisconnecting = false
        ∧ ((monitorIter fuel uri ch env n w).2.client
              = { tornDown w.client with isMonitoringConnection := false }
          ∨ (monitorIter fuel uri ch env n w).2.client
              = afterProbe env (afterDial env w.client))) := by
  cases fuel with
  | zero => left; rfl
  | succ f =>
    cases hd : w.client.isDisconnecting with
    | true => left; rw [monitorIter_stuck _ uri ch env n w hd]
    | false =>
      right
      refine ⟨rfl, ?_⟩
      cases hs : w.client.shouldDisconnect with
      | true => left; rw [monitorIter_exit f uri ch env n w hd hs]
      | false =>
        right
        obtain ⟨n2, -, h2⟩ := monitorIter_body f uri ch env n w hd hs
        obtain ⟨n3, -, g2, -⟩ := monitorCycle_ready f uri ch env n w hd
        rw [h2]
        exact g2

theorem Connect_client (fuel : Nat) (uri : String) (ch : Option Nat) (w : World) :
    (Connect fuel uri ch w).2.client.c = w.client.c
    ∧ (Connect fuel uri ch w).2.client.isConnected = w.client.isConnected
    ∧ (Connect fuel uri ch w).2.client.isDisconnecting = w.client.isDisconnecting := by
  cases fuel with
  | zero => exact ⟨rfl, rfl, rfl⟩
  | succ f =>
    cases hd : w.client.isDisconnecting with
    | true => rw [Connect_stuck _ uri ch w hd]; exact ⟨rfl, rfl, hd⟩
    | false =>
      cases hm : w.client.isMonitoringConnection with
      | false => rw [Connect_spawn f uri ch w hd hm]; exact ⟨rfl, rfl, hd⟩
      | true =>
        cases hc : w.client.isConnected with
        | false => rw [Connect_wait f uri ch w hd hm hc]; exact ⟨rfl, hc, hd⟩
        | true => rw [Connect_join f uri ch w hd hm hc]; exact ⟨rfl, hc, hd⟩

theorem HandleInv_afterDial (env : CycleEnv) (mc : mongoclient) (h : HandleInv mc) :
    HandleInv (afterDial env mc) := by
  unfold afterDial
  split
  · exact h
  · split
    · intro _; simp
    · exact h

theorem HandleInv_afterProbe (env : CycleEnv) (mc : mongoclient) :
    HandleInv (afterProbe env mc) := by
  unfold afterProbe
  split
  · intro hc; simp at hc
  · rename_i hd heq
    split
    · intro _; simp [heq]
    · intro hc; simp [tornDown] at hc

theorem HandleInv_exec (fuel : Nat) (op : CoreOp) (w : World) (h : HandleInv w.client) :
    HandleInv (op.exec fuel w).client := by
  cases op with
  | Connect uri ch =>
    obtain ⟨h1, h2, -⟩ := Connect_client fuel uri ch w
    intro hc
    show (Connect fuel uri ch w).2.client.c ≠ none
    rw [h1]
    exact h (by rw [← h2]; exact hc)
  | Disconnect =>
    obtain ⟨-, -, -, h1, h2, -⟩ := Disconnect_effect fuel w
    intro hc
    show (Disconnect fuel w).2.client.c ≠ none
    rw [h1]
    exact h (by rw [← h2]; exact hc)
  | GetClient =>
    show HandleInv (GetClient fuel w).2.client
    rw [GetClient_client]
    exact h
  | dial uri dialed =>
    show HandleInv (connect fuel uri dialed w).2.client
    rcases connect_client fuel uri dialed w with h1 | ⟨hd, -, -, h1⟩
    · rw [h1]; exact h
    · rw [h1]; intro _; simp
  | teardown derr =>
    show HandleInv (disconnect derr w).2.client
    rw [disconnect_eq]
    intro hc
    simp [tornDown] at hc
  | cycleDial uri env =>
    show HandleInv (cycleDial fuel uri env w).2.client
    rcases cycleDial_client fuel uri env w with h1 | ⟨-, h1⟩
    · rw [h1]; exact h
    · rw [h1]; exact HandleInv_afterDial env _ h
  | cycleProbe ch env old n =>
    show HandleInv (cycleProbe fuel ch env old n w).2.client
    rcases cycleProbe_client fuel ch env old n w with h1 | h1
    · rw [h1]; exact h
    · rw [h1]; exact HandleInv_afterProbe env _
  | iterate uri ch env n =>
    show HandleInv (monitorIter fuel uri ch env n w).2.client
    rcases monitorIter_client fuel uri ch env n w with h1 | ⟨-, h1 | h1⟩
    · rw [h1]; exact h
    · rw [h1]; intro hc; simp [tornDown] at hc
    · rw [h1]; exact HandleInv_afterProbe env _

theorem HandleInv_reachable (w : World) (h : Reachable w) : HandleInv w.client := by
  induction h with
  | start => intro hc; cases hc
  | step fuel op w _ ih => exact HandleInv_exec fuel op w ih

/-! ## C8: connected only with a handle -/

/-- C8: the predicate "`isConnected` implies the handle is present" holds in the initial
state, is preserved by every operation of the core in every state and with every fuel
(`Connect`, `Disconnect`, `GetClient`, the dialer `connect`, the teardown `disconnect`,
both halves of a monitor cycle and a whole loop iteration, under any driver answers),
and so holds in every reachable state. -/
theorem connected_implies_handle :
    (World.init.client.isConnected = true → World.init.client.c ≠ none)
    ∧ (∀ (fuel : Nat) (op : CoreOp) (w : World),
        (w.client.isConnected = true → w.client.c ≠ none) →
        ((op.exec fuel w).client.isConnected = true → (op.exec fuel w).client.c ≠ none))
    ∧ ∀ w : World, Reachable w → ¬ (w.client.isConnected = true ∧ w.client.c = none) := by
  refine ⟨?_, ?_, ?_⟩
  · exact HandleInv_reachable World.init Reachable.start
  · intro fuel op w h
    exact HandleInv_exec fuel op w h
  · rintro w hr ⟨hc, hn⟩
    exact HandleInv_reachable w hr hc hn

/-! ## C9: a disconnect request is honoured at the next loop check -/

theorem exec_flags (fuel : Nat) (op : CoreOp) (w : World)
    (hd : w.client.isDisconnecting = false) :
    (op.exec fuel w).client.isDisconnecting = false
    ∧ (op.isConnect = false → w.client.shouldDisconnect = true →
        (op.exec fuel w).client.shouldDisconnect = true) := by
  cases op with
  | Connect uri ch =>
    obtain ⟨-, -, h3⟩ := Connect_client fuel uri ch w
    exact ⟨h3.trans hd, fun h => by cases h⟩
  | Disconnect =>
    refine ⟨(Disconnect_effect fuel w).2.2.1.trans hd, fun _ hs => ?_⟩
    show (Disconnect fuel w).2.client.shouldDisconnect = true
    cases fuel with
    | zero => exact hs
    | succ f =>
      rw [Disconnect_ready f w hd]
      cases w.client.isConnected
      · exact hs
      · rfl
  | GetClient =>
    show (GetClient fuel w).2.client.isDisconnecting = false ∧ (_ → _ →
      (GetClient fuel w).2.client.shouldDisconnect = true)
    rw [GetClient_client]
    exact ⟨hd, fun _ hs => hs⟩
  | dial uri dialed =>
    show (connect fuel uri dialed w).2.client.isDisconnecting = false ∧ (_ → _ →
      (connect fuel uri dialed w).2.client.shouldDisconnect = true)
    rcases connect_client fuel uri dialed w with h1 | ⟨h, -, -, h1⟩ <;> rw [h1] <;>
      exact ⟨hd, fun _ hs => hs⟩
  | teardown derr =>
    show (disconnect derr w).2.client.isDisconnecting = false ∧ (_ → _ →
      (disconnect derr w).2.client.shouldDisconnect = true)
    rw [disconnect_eq]
    exact ⟨rfl, fun _ hs => hs⟩
  | cycleDial uri env =>
    show (cycleDial fuel uri env w).2.client.isDisconnecting = false ∧ (_ → _ →
      (cycleDial fuel uri env w).2.client.shouldDisconnect = true)
    rcases cycleDial_client fuel uri env w with h1 | ⟨-, h1⟩ <;> rw [h1]
    · exact ⟨hd, fun _ hs => hs⟩
    · exact ⟨(afterDial_isDisconnecting env _).trans hd,
        fun _ hs => (afterDial_flags env _).1.trans hs⟩
  | cycleProbe ch env old n =>
    show (cycleProbe fuel ch env old n w).2.client.isDisconnecting = false ∧ (_ → _ →
      (cycleProbe fuel ch env old n w).2.client.shouldDisconnect = true)
    rcases cycleProbe_client fuel ch env old n w with h1 | h1 <;> rw [h1]
    · exact ⟨hd, fun _ hs => hs⟩
    · exact ⟨afterProbe_isDisconnecting env _ hd,
        fun _ hs => (afterProbe_flags env _).1.trans hs⟩
  | iterate uri ch env n =>
    show (monitorIter fuel uri ch env n w).2.client.isDisconnecting = false ∧ (_ → _ →
      (monitorIter fuel uri ch env n w).2.client.shouldDisconnect = true)
    rcases monitorIter_client fuel uri ch env n w with h1 | ⟨-, h1 | h1⟩ <;> rw [h1]
    · exact ⟨hd, fun _ hs => hs⟩
    · exact ⟨rfl, fun _ hs => hs⟩
    · exact ⟨afterProbe_isDisconnecting env _ ((afterDial_isDisconnecting env _).trans hd),
        fun _ hs => ((afterProbe_flags env _).1.trans (afterDial_flags env _).1).trans hs⟩

theorem runOps_flags (ops : List (Nat × CoreOp)) (w : World)
    (hd : w.client.isDisconnecting = false) (hs : w.client.shouldDisconnect = true)
    (hops : ∀ p ∈ ops, p.2.isConnect = false) :
    (runOps ops w).client.isDisconnecting = false
    ∧ (runOps ops w).client.shouldDisconnect = true := by
  induction ops generalizing w with
  | nil => exact ⟨hd, hs⟩
  | cons p rest ih =>
    obtain ⟨fuel, op⟩ := p
    obtain ⟨h1, h2⟩ := exec_flags fuel op w hd
    exact ih (op.exec fuel w) h1 (h2 (hops (fuel, op) (List.mem_cons_self _ _)) hs)
      (fun q hq => hops q (List.mem_cons_of_mem _ hq))

/-- C9: from every connected state, once `Disconnect` has returned nil, and whatever the
rest of the loop's current cycle and other callers do meanwhile short of a new
`Connect`, the next evaluation of the loop head (whatever the driver answers and the
loop's `notified`) leaves the loop and tears down: the handle is absent, `isConnected`,
`isDisconnecting` and `isMonitoringConnection` are false, and `GetClient` returns
`(nil, ErrNoMongoConnection)`. `Disconnect` does return nil from every connected state
in which no teardown is in progress. -/
theorem disconnect_stops_monitor (fuel fuelL fuelG : Nat) (uri : String) (ch : Option Nat)
    (env : CycleEnv) (n : Bool) (w w1 : World) (meanwhile : List (Nat × CoreOp))
    (hc : w.client.isConnected = true)
    (hret : Disconnect fuel w = (Res.ok none, w1))
    (hops : ∀ p ∈ meanwhile, p.2.isConnect = false) :
    (∃ w2, monitorIter (fuelL + 1) uri ch env n (runOps meanwhile w1)
              = (Res.ok LoopState.stopped, w2)
      ∧ w2.client.c = none
      ∧ w2.client.isConnected = false
      ∧ w2.client.isDisconnecting = false
      ∧ w2.client.isMonitoringConnection = false
      ∧ GetClient (fuelG + 1) w2 = (Res.ok (none, some GoError.ErrNoMongoConnection), w2))
    ∧ ∀ (fuel0 : Nat) (w0 : World), w0.client.isConnected = true →
        w0.client.isDisconnecting = false → (Disconnect (fuel0 + 1) w0).1 = Res.ok none := by
  constructor
  · cases fuel with
    | zero => rw [Disconnect_zero] at hret; cases hret
    | succ f =>
      cases hd : w.client.isDisconnecting with
      | true => rw [Disconnect_stuck _ w hd] at hret; cases hret
      | false =>
        rw [Disconnect_ready f w hd, hc] at hret
        simp only [if_true] at hret
        cases hret
        obtain ⟨m1, m2⟩ := runOps_flags meanwhile
          { client := { w.client with shouldDisconnect := true }
            trace := w.trace
              ++ [Event.log LogLevel.warn "mongo connection marked for disconnection"] }
          hd rfl hops
        rw [monitorIter_exit fuelL uri ch env n _ m1 m2]
        refine ⟨_, rfl, rfl, rfl, rfl, rfl, ?_⟩
        rw [GetClient_ready fuelG _ rfl]
        rfl
  · intro fuel0 w0 hc0 hd0
    rw [Disconnect_ready fuel0 w0 hd0, hc0]
    rfl

/-- C9, witness: `Disconnect` on the connected state with handle `7`, a `GetClient` of
another caller, then the loop head. -/
theorem disconnect_stops_monitor_witness :
    connectedWorld.client.isConnected = true
      ∧ ∃ w2, monitorIter 1 "srv" (some 0) healthy true
              (runOps [(1, CoreOp.GetClient)] (Disconnect 1 connectedWorld).2)
            = (Res.ok LoopState.stopped, w2)
          ∧ w2.client.c = none
          ∧ w2.client.isConnected = false
          ∧ w2.client.isDisconnecting = false
          ∧ w2.client.isMonitoringConnection = false
          ∧ GetClient 1 w2 = (Res.ok (none, some GoError.ErrNoMongoConnection), w2) :=
  ⟨rfl, (disconnect_stops_monitor 1 0 0 "srv" (some 0) healthy true connectedWorld
    (Disconnect 1 connectedWorld).2 [(1, CoreOp.GetClient)] rfl rfl
    (fun p hp => by
      simp only [List.mem_singleton] at hp
      subst hp
      rfl)).1⟩

/-! ## C10: self-healing -/

theorem Settled_afterProbe (env : CycleEnv) (mc : mongoclient)
    (h : mc.isDisconnecting = false) : Settled (afterProbe env mc) := by
  refine ⟨afterProbe_isDisconnecting env mc h, ?_⟩
  unfold afterProbe
  split
  · rename_i heq; intro _; exact heq
  · split
    · intro hc; simp at hc
    · intro _; rfl

theorem Settled_atCycleStart (w : World) (h : AtCycleStart w) : Settled w.client := by
  induction h with
  | start => exact ⟨rfl, fun _ => rfl⟩
  | connectCall fuel uri ch w _ ih =>
    obtain ⟨h1, h2, h3⟩ := Connect_client fuel uri ch w
    exact ⟨h3.trans ih.1, fun hc => h1.trans (ih.2 (h2 ▸ hc))⟩
  | disconnectCall fuel w _ ih =>
    obtain ⟨-, -, h3, h1, h2, -⟩ := Disconnect_effect fuel w
    exact ⟨h3.trans ih.1, fun hc => h1.trans (ih.2 (h2 ▸ hc))⟩
  | getClientCall fuel w _ ih =>
    rw [GetClient_client]
    exact ih
  | iteration fuel uri ch env n w _ ih =>
    rcases monitorIter_client fuel uri ch env n w with h1 | ⟨hd, h1 | h1⟩
    · rw [h1]; exact ih
    · rw [h1]; exact ⟨rfl, fun _ => rfl⟩
    · rw [h1]
      exact Settled_afterProbe env _ (by rw [afterDial_isDisconnecting]; exact hd)

theorem Idle_after_failure (env : CycleEnv) (mc : mongoclient) (hs : Settled mc)
    (hf : (mc.isConnected = false ∧ env.dialFails = true) ∨ env.probeFails = true) :
    Idle (afterProbe env (afterDial env mc)) := by
  obtain ⟨c, ic, id, sd, im⟩ := mc
  obtain ⟨d, p, de, pa⟩ := env
  obtain ⟨h1, h2⟩ := hs
  simp only at h1 h2
  subst h1
  rcases hf with ⟨hc, hdf⟩ | hpf
  · simp only at hc
    subst hc
    have hcn := h2 rfl
    subst hcn
    cases d with
    | error e => simp [Idle, afterDial, afterProbe]
    | ok h => simp [CycleEnv.dialFails] at hdf
  · cases p with
    | none => simp [CycleEnv.probeFails] at hpf
    | some e =>
      cases ic <;> cases d <;> cases c <;>
        simp_all [Idle, afterDial, afterProbe, tornDown]

theorem healed_after_success (env : CycleEnv) (mc : mongoclient) (h : Handle) (hi : Idle mc)
    (hd : env.dialed = Except.ok h) (hp : env.pingErr = none) :
    afterProbe env (afterDial env mc) = { mc with c := some h, isConnected := true } := by
  obtain ⟨c, ic, id, sd, im⟩ := mc
  obtain ⟨d, p, de, pa⟩ := env
  obtain ⟨h1, h2, h3⟩ := hi
  simp only at h1 h2 h3 hd hp
  subst h1 h2 h3 hd hp
  simp [afterDial, afterProbe]

theorem runCycles_append (fuel : Nat) (uri : String) (ch : Option Nat)
    (xs ys : List CycleEnv) (n : Bool) (w : World) :
    runCycles fuel uri ch (xs ++ ys) n w
      = match runCycles fuel uri ch xs n w with
        | (Res.ok n2, w2) => runCycles fuel uri ch ys n2 w2
        | (Res.blocked, w2) => (Res.blocked, w2)
        | (Res.panicked, w2) => (Res.panicked, w2) := by
  induction xs generalizing n w with
  | nil => simp [runCycles, Pure.pure, Prog.pure]
  | cons x rest ih =>
    simp only [List.cons_append, runCycles, Bind.bind, Prog.bind]
    rcases monitorCycle fuel uri ch x n w with ⟨r, w2⟩
    cases r with
    | ok n2 => exact ih n2 w2
    | blocked => rfl
    | panicked => rfl

theorem runCycles_settled (fuel : Nat) (uri : String) (ch : Option Nat)
    (xs : List CycleEnv) (n : Bool) (w : World) (h : Settled w.client) :
    ∃ n2, (runCycles (fuel + 1) uri ch xs n w).1 = Res.ok n2
      ∧ Settled (runCycles (fuel + 1) uri ch xs n w).2.client := by
  induction xs generalizing n w with
  | nil => exact ⟨n, rfl, h⟩
  | cons x rest ih =>
    obtain ⟨n2, g1, g2, -⟩ := monitorCycle_ready fuel uri ch x n w h.1
    simp only [runCycles, Bind.bind, Prog.bind]
    rcases hm : monitorCycle (fuel + 1) uri ch x n w with ⟨r, w2⟩
    rw [hm] at g1 g2
    simp only at g1 g2
    subst g1
    apply ih
    rw [g2]
    exact Settled_afterProbe x _ (by rw [afterDial_isDisconnecting]; exact h.1)

theorem runCycles_failures (fuel : Nat) (uri : String) (ch : Option Nat)
    (xs : List CycleEnv) (n : Bool) (w : World) (h : Idle w.client)
    (hf : ∀ x ∈ xs, x.dialFails = true ∨ x.probeFails = true) :
    ∃ n2, (runCycles (fuel + 1) uri ch xs n w).1 = Res.ok n2
      ∧ Idle (runCycles (fuel + 1) uri ch xs n w).2.client := by
  induction xs generalizing n w with
  | nil => exact ⟨n, rfl, h⟩
  | cons x rest ih =>
    obtain ⟨n2, g1, g2, -⟩ := monitorCycle_ready fuel uri ch x n w h.1
    simp only [runCycles, Bind.bind, Prog.bind]
    rcases hm : monitorCycle (fuel + 1) uri ch x n w with ⟨r, w2⟩
    rw [hm] at g1 g2
    simp only at g1 g2
    subst g1
    apply ih
    · rw [g2]
      apply Idle_after_failure x _ ⟨h.1, fun _ => h.2.2⟩
      rcases hf x (List.mem_cons_self _ _) with hx | hx
      · exact Or.inl ⟨h.2.1, hx⟩
      · exact Or.inr hx
    · intro y hy
      exact hf y (List.mem_cons_of_mem _ hy)

theorem runCycles_single (fuel : Nat) (uri : String) (ch : Option Nat) (x : CycleEnv)
    (n : Bool) (w : World) (h : w.client.isDisconnecting = false) :
    ∃ n2, (runCycles (fuel + 1) uri ch [x] n w).1 = Res.ok n2
      ∧ (runCycles (fuel + 1) uri ch [x] n w).2.client = afterProbe x (afterDial x w.client) := by
  obtain ⟨n2, g1, g2, -⟩ := monitorCycle_ready fuel uri ch x n w h
  simp only [runCycles, Bind.bind, Prog.bind]
  rcases hm : monitorCycle (fuel + 1) uri ch x n w with ⟨r, w2⟩
  rw [hm] at g1 g2
  simp only at g1 g2
  subst g1
  exact ⟨n2, rfl, g2⟩

/-- The state after a run, then one failing cycle, then further failing cycles. -/
theorem runCycles_down (fuel : Nat) (uri : String) (ch : Option Nat) (n : Bool) (w : World)
    (hw : Settled w.client) (pre : List CycleEnv) (e : CycleEnv) (fails : List CycleEnv)
    (he : ((runCycles (fuel + 1) uri ch pre n w).2.client.isConnected = false
            ∧ e.dialFails = true) ∨ e.probeFails = true)
    (hf : ∀ x ∈ fails, x.dialFails = true ∨ x.probeFails = true) :
    ∃ n2, (runCycles (fuel + 1) uri ch (pre ++ e :: fails) n w).1 = Res.ok n2
      ∧ Idle (runCycles (fuel + 1) uri ch (pre ++ e :: fails) n w).2.client := by
  obtain ⟨n1, p1, p2⟩ := runCycles_settled fuel uri ch pre n w hw
  rw [runCycles_append]
  rcases hp : runCycles (fuel + 1) uri ch pre n w with ⟨r, w1⟩
  rw [hp] at p1 p2 he
  simp only at p1 p2 he
  subst p1
  simp only
  have : e :: fails = [e] ++ fails := rfl
  rw [this, runCycles_append]
  obtain ⟨n2, q1, q2⟩ := runCycles_single fuel uri ch e n1 w1 p2.1
  rcases hq : runCycles (fuel + 1) uri ch [e] n1 w1 with ⟨r2, w2⟩
  rw [hq] at q1 q2
  simp only at q1 q2
  subst q1
  simp only
  apply runCycles_failures fuel uri ch fails n2 w2 _ hf
  rw [q2]
  exact Idle_after_failure e _ p2 he

/-- C10: in every run of monitor cycles started in a state in which a cycle can start:
after a cycle whose dial or probe failed, and after each further failing cycle,
`GetClient` returns `ErrNoMongoConnection` and no handle is stored; and right after the
first following cycle whose dial and probe succeed, `GetClient` returns the handle that
cycle dialed, with a nil error. -/
theorem self_healing (fuel : Nat) (uri : String) (ch : Option Nat) (n : Bool) (w : World)
    (hw : AtCycleStart w) (pre : List CycleEnv) (e : CycleEnv) (fails : List CycleEnv)
    (good : CycleEnv) (h : Handle)
    (he : ((runCycles (fuel + 1) uri ch pre n w).2.client.isConnected = false
            ∧ e.dialFails = true) ∨ e.probeFails = true)
    (hf : ∀ x ∈ fails, x.dialFails = true ∨ x.probeFails = true)
    (hd : good.dialed = Except.ok h) (hp : good.pingErr = none) :
    (∀ j : Nat,
        (GetClient (fuel + 1) (runCycles (fuel + 1) uri ch (pre ++ e :: fails.take j) n w).2).1
          = Res.ok (none, some GoError.ErrNoMongoConnection)
        ∧ (runCycles (fuel + 1) uri ch (pre ++ e :: fails.take j) n w).2.client.c = none)
    ∧ (GetClient (fuel + 1)
        (runCycles (fuel + 1) uri ch (pre ++ e :: fails ++ [good]) n w).2).1
        = Res.ok (some h, none) := by
  have hs := Settled_atCycleStart w hw
  constructor
  · intro j
    obtain ⟨n2, -, i1, i2, i3⟩ := runCycles_down fuel uri ch n w hs pre e (fails.take j) he
      (fun x hx => hf x (List.mem_of_mem_take hx))
    rw [GetClient_ready fuel _ i1, i2]
    exact ⟨rfl, i3⟩
  · obtain ⟨n2, r1, i1⟩ := runCycles_down fuel uri ch n w hs pre e fails he hf
    have : pre ++ e :: fails ++ [good] = (pre ++ e :: fails) ++ [good] := by simp
    rw [this, runCycles_append]
    rcases hr : runCycles (fuel + 1) uri ch (pre ++ e :: fails) n w with ⟨r, w1⟩
    rw [hr] at r1 i1
    simp only at r1 i1
    subst r1
    simp only
    obtain ⟨n3, -, q2⟩ := runCycles_single fuel uri ch good n2 w1 i1.1
    have hcl := healed_after_success good w1.client h i1 hd hp
    rw [hcl] at q2
    rw [GetClient_ready fuel _ (by rw [q2]; exact i1.1), q2]
    rfl

/-- C10, witness: from process start, three cycles whose probe fails and then a healthy
cycle: `GetClient` fails after each of the three and returns handle `7` after the
fourth. -/
theorem self_healing_witness :
    (∀ j : Nat,
        (GetClient 1 (runCycles 1 "srv" (some 0)
            ([] ++ probeDown :: [probeDown, probeDown].take j) false World.init).2).1
          = Res.ok (none, some GoError.ErrNoMongoConnection)
        ∧ (runCycles 1 "srv" (some 0)
            ([] ++ probeDown :: [probeDown, probeDown].take j) false World.init).2.client.c
          = none)
    ∧ (GetClient 1 (runCycles 1 "srv" (some 0)
        ([] ++ probeDown :: [probeDown, probeDown] ++ [healthy]) false World.init).2).1
        = Res.ok (some 7, none) :=
  self_healing 0 "srv" (some 0) false World.init AtCycleStart.start [] probeDown
    [probeDown, probeDown] healthy 7 (Or.inr rfl)
    (fun x hx => by
      simp only [List.mem_cons, List.mem_singleton, List.not_mem_nil, or_false] at hx
      rcases hx with rfl | rfl <;> exact Or.inr rfl)
    rfl rfl

/-! ## C11: reads of the state during a teardown -/

theorem getClient_eq (w : World) : getClient w = (Res.ok w.client.c, w) := rfl

/-- C11, the code at the failing input: in the state `disconnect` passes through after
line 101 (teardown begun, handle `7` still stored), the three flag getters return
nothing whatever the fuel, but `getClient` returns the handle at once and `Aggregate`,
which takes no lock, reads `isConnected` and the handle at once and calls the driver on
the handle being torn down; after line 112 (handle nil, `isConnected` still true)
`Aggregate` dereferences the nil handle; and with `isConnected` false `Aggregate`
returns `ErrNoMongoConnection` at once. In every state `getClient` returns without
waiting. -/
theorem reads_during_teardown :
    midTeardown.client ∈ disconnectPhases connectedWorld.client
    ∧ midTeardownNil.client ∈ disconnectPhases connectedWorld.client
    ∧ midTeardown.client.isDisconnecting = true
    ∧ (∀ fuel : Nat, (getIsConnected fuel midTeardown).1 = Res.blocked
        ∧ (getIsMonitoringConnection fuel midTeardown).1 = Res.blocked
        ∧ (getShouldDisconnect fuel midTeardown).1 = Res.blocked)
    ∧ getClient midTeardown = (Res.ok (some 7), midTeardown)
    ∧ (Aggregate ("userGroup", "users") 0 (some 1, none) midTeardown).1
        = Res.ok (some 1, none)
    ∧ driverCalls (Aggregate ("userGroup", "users") 0 (some 1, none) midTeardown).2.trace = 1
    ∧ (Aggregate ("userGroup", "users") 0 (some 1, none) midTeardownNil).1 = Res.panicked
    ∧ Aggregate ("userGroup", "users") 0 (some 1, none) tearingDown
        = (Res.ok (none, some GoError.ErrNoMongoConnection), tearingDown)
    ∧ ∀ w : World, getClient w = (Res.ok w.client.c, w) := by
  refine ⟨by decide, by decide, rfl, ?_, rfl, rfl, rfl, rfl, rfl, fun w => rfl⟩
  intro fuel
  rw [getIsConnected_stuck fuel midTeardown rfl,
    getIsMonitoringConnection_stuck fuel midTeardown rfl,
    getShouldDisconnect_stuck fuel midTeardown rfl]
  exact ⟨rfl, rfl, rfl⟩

/-! ## C12: the probe runs only on a stored handle -/

theorem pingsOf_append (xs ys : List Event) :
    pingsOf (xs ++ ys) = pingsOf xs ++ pingsOf ys := by
  simp [pingsOf]

theorem pingsOf_nil : pingsOf [] = [] := rfl

theorem pingsOf_cons (e : Event) (es : List Event) :
    pingsOf (e :: es)
      = (match e with
          | Event.ping h => [h]
          | _ => []) ++ pingsOf es := by
  cases e <;> simp [pingsOf, List.filterMap_cons]

theorem pingsOf_replicate_sleep (n s : Nat) :
    pingsOf (List.replicate n (Event.sleep s)) = [] := by
  induction n with
  | zero => rfl
  | succ m ih => simp [List.replicate_succ, pingsOf_cons, ih]

theorem pingsOf_disconnectTrace (derr : Option GoError) (c : Option Handle) :
    pingsOf (disconnectTrace derr c) = [] := by
  cases c with
  | none => simp [disconnectTrace, pingsOf_nil]
  | some h =>
    cases derr with
    | none => simp [disconnectTrace, disconnectLog, pingsOf_cons, pingsOf_nil]
    | some e =>
      by_cases he : e = GoError.ErrClientDisconnected <;>
        simp [disconnectTrace, disconnectLog, pingsOf_cons, pingsOf_nil, he]

theorem ping_panics_iff (pingErr : Option GoError) (w : World) :
    (ping pingErr w).1 = Res.panicked ↔ w.client.c = none := by
  obtain ⟨⟨c, ic, id, sd, im⟩, tr⟩ := w
  cases c <;>
    simp [ping, readClient, nilDeref, emit, Bind.bind, Prog.bind, Pure.pure, Prog.pure]

/-- The dialing half never panics and never probes. -/
theorem cycleDial_probes (fuel : Nat) (uri : String) (env : CycleEnv) (w : World) :
    (cycleDial fuel uri env w).1 ≠ Res.panicked
    ∧ pingsOf (cycleDial fuel uri env w).2.trace = pingsOf w.trace := by
  cases fuel with
  | zero => rw [cycleDial_zero]; exact ⟨(fun h => by cases h), rfl⟩
  | succ f =>
    cases hd : w.client.isDisconnecting with
    | true =>
      rw [cycleDial_stuck _ uri env w hd]
      refine ⟨(fun h => by cases h), ?_⟩
      simp [pingsOf_append, pingsOf_replicate_sleep]
    | false =>
      rw [cycleDial_ready f uri env w hd]
      refine ⟨(fun h => by cases h), ?_⟩
      cases w.client.isConnected <;> simp [pingsOf_append, pingsOf_cons, pingsOf_nil]

/-- The probing half, in every world and with every fuel: it never panics, and it probes
exactly the handle stored when it starts, if there is one. -/
theorem cycleProbe_probes (fuel : Nat) (ch : Option Nat) (env : CycleEnv) (old n : Bool)
    (w : World) :
    (cycleProbe fuel ch env old n w).1 ≠ Res.panicked
    ∧ pingsOf (cycleProbe fuel ch env old n w).2.trace = pingsOf w.trace ++ w.client.c.toList := by
  obtain ⟨⟨c, ic, id, sd, im⟩, tr⟩ := w
  obtain ⟨d, p, de, pa⟩ := env
  cases id with
  | false =>
    cases fuel with
    | succ f =>
      cases c with
      | none =>
        rw [cycleProbe_noHandle f ch _ old n _ rfl rfl]
        refine ⟨(fun h => by cases h), ?_⟩
        simp [pingsOf_append, pingsOf_cons, pingsOf_nil]
      | some hd =>
        cases p with
        | none =>
          rw [cycleProbe_pingOk f ch _ old n _ hd rfl rfl rfl]
          refine ⟨(fun h => by cases h), ?_⟩
          cases old <;> cases pa <;> cases ch <;> cases n <;>
            simp [pingsOf_append, pingsOf_cons, pingsOf_nil]
        | some e =>
          rw [cycleProbe_pingFailed f ch _ old n _ hd e rfl rfl rfl]
          refine ⟨(fun h => by cases h), ?_⟩
          cases old <;>
            simp [pingsOf_append, pingsOf_cons, pingsOf_nil, pingsOf_disconnectTrace]
    | zero =>
      cases c with
      | none =>
        simp [cycleProbe, getClient, readClient, setIsConnected_zero, Bind.bind, Prog.bind,
          Pure.pure, Prog.pure]
      | some hd =>
        cases p with
        | none =>
          simp [cycleProbe, probeSucceeded, ping, getClient, readClient, emit,
            setIsConnected_zero, Bind.bind, Prog.bind, Pure.pure, Prog.pure, pingsOf_append,
            pingsOf_cons, pingsOf_nil]
        | some e =>
          simp [cycleProbe, probeFailed, ping, getClient, readClient, emit, disconnect_eq,
            getIsConnected_zero, Bind.bind, Prog.bind, Pure.pure, Prog.pure, pingsOf_append,
            pingsOf_cons, pingsOf_nil, pingsOf_disconnectTrace]
  | true =>
    cases c with
    | none =>
      simp [cycleProbe, getClient, readClient, setIsConnected_stuck, Bind.bind, Prog.bind,
        Pure.pure, Prog.pure, pingsOf_append, pingsOf_replicate_sleep]
    | some hd =>
      cases p with
      | none =>
        simp [cycleProbe, probeSucceeded, ping, getClient, readClient, emit,
          setIsConnected_stuck, Bind.bind, Prog.bind, Pure.pure, Prog.pure, pingsOf_append,
          pingsOf_cons, pingsOf_nil, pingsOf_replicate_sleep]
      | some e =>
        cases fuel with
        | zero =>
          simp [cycleProbe, probeFailed, ping, getClient, readClient, emit, disconnect_eq,
            getIsConnected_zero, Bind.bind, Prog.bind, Pure.pure, Prog.pure, pingsOf_append,
            pingsOf_cons, pingsOf_nil, pingsOf_disconnectTrace]
        | succ f =>
          cases old <;>
            simp [cycleProbe, probeFailed, ping, getClient, readClient, emit, disconnect_eq,
              getIsConnected_ready, tornDown, Bind.bind, Prog.bind, Pure.pure,
              Prog.pure, pingsOf_append, pingsOf_cons, pingsOf_nil, pingsOf_disconnectTrace]

theorem cycleDial_returned (fuel : Nat) (uri : String) (env : CycleEnv) (w w1 : World)
    (old : Bool) (h : cycleDial fuel uri env w = (Res.ok old, w1)) :
    w1.client.isDisconnecting = false ∧ ∃ f, fuel = f + 1 := by
  cases fuel with
  | zero => rw [cycleDial_zero] at h; cases h
  | succ f =>
    cases hd : w.client.isDisconnecting with
    | true => rw [cycleDial_stuck _ uri env w hd] at h; cases h
    | false =>
      rw [cycleDial_ready f uri env w hd] at h
      cases h
      exact ⟨(afterDial_isDisconnecting env _).trans hd, f, rfl⟩

/-- A whole cycle, in every world and with every fuel: it never panics, and it probes
exactly the handle stored after its dialing half, if it gets there and there is one. -/
theorem monitorCycle_probes (fuel : Nat) (uri : String) (ch : Option Nat) (env : CycleEnv)
    (n : Bool) (w : World) :
    (monitorCycle fuel uri ch env n w).1 ≠ Res.panicked
    ∧ pingsOf (monitorCycle fuel uri ch env n w).2.trace
        = pingsOf w.trace
          ++ (match cycleDial fuel uri env w with
              | (Res.ok _, w1) => w1.client.c.toList
              | _ => []) := by
  obtain ⟨d1, d2⟩ := cycleDial_probes fuel uri env w
  simp only [monitorCycle, Bind.bind, Prog.bind]
  rcases hcd : cycleDial fuel uri env w with ⟨r, w1⟩
  rw [hcd] at d1 d2
  simp only at d1 d2
  cases r with
  | ok old =>
    obtain ⟨p1, p2⟩ := cycleProbe_probes fuel ch env old n w1
    exact ⟨p1, by rw [p2, d2]⟩
  | blocked => exact ⟨(fun h => by cases h), by simp [d2]⟩
  | panicked => exact absurd rfl d1

theorem monitorIter_noPanic (fuel : Nat) (uri : String) (ch : Option Nat) (env : CycleEnv)
    (n : Bool) (w : World) : (monitorIter fuel uri ch env n w).1 ≠ Res.panicked := by
  cases fuel with
  | zero => rw [monitorIter_zero]; intro h; cases h
  | succ f =>
    cases hd : w.client.isDisconnecting with
    | true => rw [monitorIter_stuck _ uri ch env n w hd]; intro h; cases h
    | false =>
      cases hs : w.client.shouldDisconnect with
      | true => rw [monitorIter_exit f uri ch env n w hd hs]; intro h; cases h
      | false =>
        obtain ⟨n2, -, h2⟩ := monitorIter_body f uri ch env n w hd hs
        rw [h2]
        intro h
        cases h

theorem Disconnect_noPanic (fuel : Nat) (w : World) :
    (Disconnect fuel w).1 ≠ Res.panicked := by
  cases fuel with
  | zero => rw [Disconnect_zero]; intro h; cases h
  | succ f =>
    cases hd : w.client.isDisconnecting with
    | true => rw [Disconnect_stuck _ w hd]; intro h; cases h
    | false =>
      rw [Disconnect_ready f w hd]
      cases w.client.isConnected <;> (intro h; cases h)

theorem GetClient_noPanic (fuel : Nat) (w : World) :
    (GetClient fuel w).1 ≠ Res.panicked := by
  cases fuel with
  | zero => rw [GetClient_zero]; intro h; cases h
  | succ f =>
    cases hd : w.client.isDisconnecting with
    | true => rw [GetClient_stuck _ w hd]; intro h; cases h
    | false => rw [GetClient_ready f w hd]; intro h; cases h

theorem runCalls_noPanic (fuel : Nat) (calls : List FacadeCall) (w : World) :
    (runCalls fuel calls w).1 ≠ Res.panicked := by
  induction calls generalizing w with
  | nil => intro h; cases h
  | cons call rest ih =>
    have hcall : (call.run fuel w).1 ≠ Res.panicked := by
      cases call with
      | Disconnect =>
        have := Disconnect_noPanic fuel w
        rcases hr : Disconnect fuel w with ⟨r, w2⟩
        rw [hr] at this
        cases r <;> simp_all [FacadeCall.run, Bind.bind, Prog.bind, Pure.pure, Prog.pure]
      | GetClient =>
        have := GetClient_noPanic fuel w
        rcases hr : GetClient fuel w with ⟨r, w2⟩
        rw [hr] at this
        cases r <;> simp_all [FacadeCall.run, Bind.bind, Prog.bind, Pure.pure, Prog.pure]
    simp only [runCalls, Bind.bind, Prog.bind]
    rcases hr : call.run fuel w with ⟨r, w2⟩
    rw [hr] at hcall
    cases r with
    | ok u => exact ih w2
    | blocked => intro h; cases h
    | panicked => exact absurd rfl hcall

theorem monitorLoop_noPanic (fuel : Nat) (uri : String) (ch : Option Nat)
    (turns : List Turn) (st : LoopState) (w : World) :
    (monitorLoop fuel uri ch turns st w).1 ≠ Res.panicked := by
  induction turns generalizing st w with
  | nil => intro h; cases h
  | cons turn rest ih =>
    cases st with
    | stopped => intro h; cases h
    | running n =>
      have hc := runCalls_noPanic fuel turn.calls w
      simp only [monitorLoop, Bind.bind, Prog.bind]
      rcases hr : runCalls fuel turn.calls w with ⟨r0, w0⟩
      rw [hr] at hc
      cases r0 with
      | blocked => intro h; cases h
      | panicked => exact absurd rfl hc
      | ok u =>
        have hi := monitorIter_noPanic fuel uri ch turn.env n w0
        simp only
        rcases hit : monitorIter fuel uri ch turn.env n w0 with ⟨r1, w1⟩
        rw [hit] at hi
        cases r1 with
        | blocked => intro h; cases h
        | panicked => exact absurd rfl hi
        | ok st2 => exact ih st2 w1

/-- C12: in every monitor cycle, from every world, with every fuel and under every driver
answer, the cycle does not panic, and `ping` is called exactly on the handle stored after
the dialing half, when the cycle gets there and a handle is stored (never otherwise);
when no handle is stored at that point the cycle calls no `ping`, returns, and leaves
`isConnected` false. The same holds of the probing half started in any world. The
monitor loop over any schedule never panics. `ping` itself panics exactly when no handle
is stored, which is what the guard excludes. -/
theorem probe_only_with_handle (fuel : Nat) (uri : String) (ch : Option Nat) (env : CycleEnv)
    (n : Bool) (w : World) :
    (monitorCycle fuel uri ch env n w).1 ≠ Res.panicked
    ∧ pingsOf (monitorCycle fuel uri ch env n w).2.trace
        = pingsOf w.trace
          ++ (match cycleDial fuel uri env w with
              | (Res.ok _, w1) => w1.client.c.toList
              | _ => [])
    ∧ (∀ (old : Bool) (w1 : World), cycleDial fuel uri env w = (Res.ok old, w1) →
        w1.client.c = none →
        (monitorCycle fuel uri ch env n w).1 = Res.ok n
        ∧ (monitorCycle fuel uri ch env n w).2.client.isConnected = false
        ∧ pingsOf (monitorCycle fuel uri ch env n w).2.trace = pingsOf w.trace)
    ∧ (∀ (old n2 : Bool) (w2 : World),
        (cycleProbe fuel ch env old n2 w2).1 ≠ Res.panicked
        ∧ pingsOf (cycleProbe fuel ch env old n2 w2).2.trace
            = pingsOf w2.trace ++ w2.client.c.toList)
    ∧ (∀ (turns : List Turn) (st : LoopState),
        (monitorLoop fuel uri ch turns st w).1 ≠ Res.panicked)
    ∧ ∀ (pingErr : Option GoError) (w2 : World),
        (ping pingErr w2).1 = Res.panicked ↔ w2.client.c = none := by
  obtain ⟨m1, m2⟩ := monitorCycle_probes fuel uri ch env n w
  refine ⟨m1, m2, ?_, fun old n2 w2 => cycleProbe_probes fuel ch env old n2 w2,
    fun turns st => monitorLoop_noPanic fuel uri ch turns st w,
    fun pingErr w2 => ping_panics_iff pingErr w2⟩
  intro old w1 hcd hc
  obtain ⟨hd1, f, hf⟩ := cycleDial_returned fuel uri env w w1 old hcd
  subst hf
  rw [m2, hcd]
  simp only [monitorCycle, Bind.bind, Prog.bind, hcd]
  rw [cycleProbe_noHandle f ch env old n w1 hd1 hc]
  simp [hc]

/-! ## C13: no teardown is in progress between operations -/

theorem AccessorOp_exec_ready (fuel : Nat) (a : AccessorOp) (w : World)
    (hd : w.client.isDisconnecting = false) :
    (a.exec fuel w).client.isDisconnecting = false := by
  cases fuel with
  | zero => cases a <;> exact hd
  | succ f =>
    cases a with
    | getIsConnected =>
      show (getIsConnected (f + 1) w).2.client.isDisconnecting = false
      rw [getIsConnected_ready f w hd]; exact hd
    | setIsConnected conn =>
      show (setIsConnected (f + 1) conn w).2.client.isDisconnecting = false
      rw [setIsConnected_ready f conn w hd]; exact hd
    | getIsMonitoringConnection =>
      show (getIsMonitoringConnection (f + 1) w).2.client.isDisconnecting = false
      rw [getIsMonitoringConnection_ready f w hd]; exact hd
    | setIsMonitoringConnection b =>
      show (setIsMonitoringConnection (f + 1) b w).2.client.isDisconnecting = false
      rw [setIsMonitoringConnection_ready f b w hd]; exact hd
    | getShouldDisconnect =>
      show (getShouldDisconnect (f + 1) w).2.client.isDisconnecting = false
      rw [getShouldDisconnect_ready f w hd]; exact hd
    | setShouldDisconnect b =>
      show (setShouldDisconnect (f + 1) b w).2.client.isDisconnecting = false
      rw [setShouldDisconnect_ready f b w hd]; exact hd
    | getClient => exact hd
    | setClient c => exact hd
    | markForDisconnect =>
      show (markForDisconnect (f + 1) w).2.client.isDisconnecting = false
      simp only [markForDisconnect, Bind.bind, Prog.bind, setShouldDisconnect_ready f true w hd,
        emit]
      exact hd

theorem AnyOp_exec_ready (fuel : Nat) (op : AnyOp) (w : World)
    (hd : w.client.isDisconnecting = false) :
    (op.exec fuel w).client.isDisconnecting = false := by
  cases op with
  | accessor a => exact AccessorOp_exec_ready fuel a w hd
  | core op => exact (exec_flags fuel op w hd).1

theorem ReachableByAny_ready (w : World) (h : ReachableByAny w) :
    w.client.isDisconnecting = false := by
  induction h with
  | start => rfl
  | step fuel op w _ ih => exact AnyOp_exec_ready fuel op w ih

/-- C13: `isDisconnecting` is false at process start; every step of the package (each
accessor, `connect`, `disconnect`, `Connect`, `Disconnect`, `GetClient`, each half of a
monitor cycle and each loop iteration), run with any fuel and any driver answers from a
state in which it is false, leaves it false, also when the step blocks; `disconnect`
returns and leaves it false from every state and whatever the driver answers; so in
every reachable state `waitForDisconnecting` returns true on its first check, leaving
the world (and so the trace, with no sleep) as it was, and every getter returns its
field. -/
theorem teardown_flag_clear_between_operations :
    World.init.client.isDisconnecting = false
    ∧ (∀ (fuel : Nat) (op : AnyOp) (w : World), w.client.isDisconnecting = false →
        (op.exec fuel w).client.isDisconnecting = false)
    ∧ (∀ (derr : Option GoError) (w : World),
        (∃ r, (disconnect derr w).1 = Res.ok r)
        ∧ (disconnect derr w).2.client.isDisconnecting = false)
    ∧ ∀ w : World, ReachableByAny w →
        w.client.isDisconnecting = false
        ∧ ∀ fuel : Nat,
            waitForDisconnecting (fuel + 1) w = (Res.ok true, w)
            ∧ getIsConnected (fuel + 1) w = (Res.ok w.client.isConnected, w)
            ∧ getIsMonitoringConnection (fuel + 1) w
                = (Res.ok w.client.isMonitoringConnection, w)
            ∧ getShouldDisconnect (fuel + 1) w = (Res.ok w.client.shouldDisconnect, w)
            ∧ getClient w = (Res.ok w.client.c, w) := by
  refine ⟨rfl, fun fuel op w hd => AnyOp_exec_ready fuel op w hd, ?_, ?_⟩
  · intro derr w
    rw [disconnect_eq]
    exact ⟨⟨_, rfl⟩, rfl⟩
  · intro w hw
    have hd := ReachableByAny_ready w hw
    refine ⟨hd, fun fuel => ⟨waitForDisconnecting_ready fuel w hd,
      getIsConnected_ready fuel w hd, getIsMonitoringConnection_ready fuel w hd,
      getShouldDisconnect_ready fuel w hd, rfl⟩⟩

/-! ## C1, C2, C7: the facade and the CRUD helpers in the reachable states

`isDisconnecting` is true only between two assignments of `disconnect`, which holds the
write lock throughout, so no caller that takes the lock meets such a state: the states an
operation can be called in are the reachable ones, where the flag is false. -/

theorem afterHealthyIteration_reachable : ReachableByAny afterHealthyIteration :=
  ReachableByAny.step 1 (AnyOp.core (CoreOp.iterate "srv" (some 0) healthy false)) World.init
    ReachableByAny.start

/-- C1: in every reachable state `GetClient` returns, leaving the world as it found it:
it returns `(nil, ErrNoMongoConnection)` if and only if `isConnected` is false, and when
`isConnected` is true it returns the stored handle with a nil error; in every state
whatsoever it leaves the package state unchanged. -/
theorem GetClient_contract (fuel : Nat) (w : World) (hw : ReachableByAny w) :
    (∃ r, GetClient (fuel + 1) w = (Res.ok r, w)
      ∧ (r = (none, some GoError.ErrNoMongoConnection) ↔ w.client.isConnected = false)
      ∧ (w.client.isConnected = true → r = (w.client.c, none)))
    ∧ ∀ (fuel2 : Nat) (w2 : World), (GetClient fuel2 w2).2.client = w2.client := by
  refine ⟨?_, fun fuel2 w2 => GetClient_client fuel2 w2⟩
  rw [GetClient_ready fuel w (ReachableByAny_ready w hw)]
  cases hc : w.client.isConnected <;> simp

/-- C1, witness: after the first healthy loop iteration the state is reachable and
connected, and `GetClient` returns handle `7` with a nil error. -/
theorem GetClient_contract_witness :
    ReachableByAny afterHealthyIteration
      ∧ afterHealthyIteration.client.isConnected = true
      ∧ afterHealthyIteration.client.c = some 7
      ∧ ∃ r, GetClient 1 afterHealthyIteration = (Res.ok r, afterHealthyIteration)
          ∧ (r = (none, some GoError.ErrNoMongoConnection)
              ↔ afterHealthyIteration.client.isConnected = false)
          ∧ (afterHealthyIteration.client.isConnected = true
              → r = (afterHealthyIteration.client.c, none)) :=
  ⟨afterHealthyIteration_reachable, rfl, rfl,
    (GetClient_contract 0 afterHealthyIteration afterHealthyIteration_reachable).1⟩

/-- C2: in every reachable state `Disconnect` returns: if `isConnected` is false it
returns `ErrNoMongoConnection` and leaves the world unchanged; if `isConnected` is true it
returns nil and the only field it changes is `shouldDisconnect`, which becomes true (the
handle, `isConnected`, `isDisconnecting` and `isMonitoringConnection` are unchanged). -/
theorem Disconnect_contract (fuel : Nat) (w : World) (hw : ReachableByAny w) :
    (w.client.isConnected = false →
        Disconnect (fuel + 1) w = (Res.ok (some GoError.ErrNoMongoConnection), w))
    ∧ (w.client.isConnected = true →
        (Disconnect (fuel + 1) w).1 = Res.ok none
        ∧ (Disconnect (fuel + 1) w).2.client.shouldDisconnect = true
        ∧ (Disconnect (fuel + 1) w).2.client.c = w.client.c
        ∧ (Disconnect (fuel + 1) w).2.client.isConnected = w.client.isConnected
        ∧ (Disconnect (fuel + 1) w).2.client.isDisconnecting = w.client.isDisconnecting
        ∧ (Disconnect (fuel + 1) w).2.client.isMonitoringConnection
            = w.client.isMonitoringConnection) := by
  rw [Disconnect_ready fuel w (ReachableByAny_ready w hw)]
  constructor <;> intro hc <;> simp [hc]

/-- C2, witness: `Disconnect` before any connection returns `ErrNoMongoConnection` and
changes nothing; after the first healthy loop iteration it returns nil and sets
`shouldDisconnect`, the handle staying stored. -/
theorem Disconnect_contract_witness :
    ReachableByAny World.init
      ∧ Disconnect 1 World.init = (Res.ok (some GoError.ErrNoMongoConnection), World.init)
      ∧ ReachableByAny afterHealthyIteration
      ∧ (Disconnect 1 afterHealthyIteration).1 = Res.ok none
      ∧ (Disconnect 1 afterHealthyIteration).2.client.shouldDisconnect = true
      ∧ (Disconnect 1 afterHealthyIteration).2.client.c = afterHealthyIteration.client.c :=
  ⟨ReachableByAny.start,
    (Disconnect_contract 0 World.init ReachableByAny.start).1 rfl,
    afterHealthyIteration_reachable,
    ((Disconnect_contract 0 afterHealthyIteration afterHealthyIteration_reachable).2 rfl).1,
    ((Disconnect_contract 0 afterHealthyIteration afterHealthyIteration_reachable).2 rfl).2.1,
    ((Disconnect_contract 0 afterHealthyIteration
      afterHealthyIteration_reachable).2 rfl).2.2.1⟩

/-- C7: in every reachable state with `isConnected` false and for every argument, each of
the fifteen CRUD helpers returns exactly `ErrNoMongoConnection` as its error (with its
zero value) and leaves the world untouched, so it performs no driver operation; and in
every state with `isConnected` false, whatever the fuel, no helper calls the driver. -/
theorem crud_guard_contract (fuel : Nat) (w : World) (hw : ReachableByAny w)
    (hc : w.client.isConnected = false)
    (m : String × String) (x y : Nat) (field : String) (docs : List Nat)
    (oe : Option GoError) (en : Except GoError Nat) (el : Except GoError (List Nat))
    (pn : Nat × Option GoError) (po : Option Nat × Option GoError)
    (pl : Option (List Nat) × Option GoError) :
    FindOne (fuel + 1) m x oe w = (Res.ok (false, some GoError.ErrNoMongoConnection), w)
    ∧ FindOneWithModel (fuel + 1) m x y oe w = (Res.ok (x, false, some GoError.ErrNoMongoConnection), w)
    ∧ UpdateOne (fuel + 1) m x y en w = (Res.ok (none, some GoError.ErrNoMongoConnection), w)
    ∧ UpdateMany (fuel + 1) m x y en w = (Res.ok (none, some GoError.ErrNoMongoConnection), w)
    ∧ AddToArray (fuel + 1) m x y en w = (Res.ok (none, some GoError.ErrNoMongoConnection), w)
    ∧ DeleteOne (fuel + 1) m x en w = (Res.ok (some GoError.ErrNoMongoConnection), w)
    ∧ DeleteMany (fuel + 1) m x en w = (Res.ok (some GoError.ErrNoMongoConnection), w)
    ∧ DeleteAll (fuel + 1) m oe w = (Res.ok (some GoError.ErrNoMongoConnection), w)
    ∧ InsertOne (fuel + 1) m x en w = (Res.ok (none, some GoError.ErrNoMongoConnection), w)
    ∧ InsertMany (fuel + 1) m docs el w = (Res.ok (none, some GoError.ErrNoMongoConnection), w)
    ∧ CountDocuments (fuel + 1) m x pn w = (Res.ok (0, some GoError.ErrNoMongoConnection), w)
    ∧ Find (fuel + 1) m x po w = (Res.ok (none, some GoError.ErrNoMongoConnection), w)
    ∧ Distinct (fuel + 1) m field x pl w = (Res.ok (none, some GoError.ErrNoMongoConnection), w)
    ∧ UpdateWithUnsetKey (fuel + 1) m x y en w = (Res.ok (none, some GoError.ErrNoMongoConnection), w)
    ∧ Aggregate m x po w = (Res.ok (none, some GoError.ErrNoMongoConnection), w)
    ∧ ∀ (fuel2 : Nat) (w2 : World), w2.client.isConnected = false →
        (driverCalls (FindOne fuel2 m x oe w2).2.trace = driverCalls w2.trace
        ∧ driverCalls (FindOneWithModel fuel2 m x y oe w2).2.trace = driverCalls w2.trace
        ∧ driverCalls (UpdateOne fuel2 m x y en w2).2.trace = driverCalls w2.trace
        ∧ driverCalls (UpdateMany fuel2 m x y en w2).2.trace = driverCalls w2.trace
        ∧ driverCalls (AddToArray fuel2 m x y en w2).2.trace = driverCalls w2.trace
        ∧ driverCalls (DeleteOne fuel2 m x en w2).2.trace = driverCalls w2.trace
        ∧ driverCalls (DeleteMany fuel2 m x en w2).2.trace = driverCalls w2.trace
        ∧ driverCalls (DeleteAll fuel2 m oe w2).2.trace = driverCalls w2.trace
        ∧ driverCalls (InsertOne fuel2 m x en w2).2.trace = driverCalls w2.trace
        ∧ driverCalls (InsertMany fuel2 m docs el w2).2.trace = driverCalls w2.trace
        ∧ driverCalls (CountDocuments fuel2 m x pn w2).2.trace = driverCalls w2.trace
        ∧ driverCalls (Find fuel2 m x po w2).2.trace = driverCalls w2.trace
        ∧ driverCalls (Distinct fuel2 m field x pl w2).2.trace = driverCalls w2.trace
        ∧ driverCalls (UpdateWithUnsetKey fuel2 m x y en w2).2.trace = driverCalls w2.trace
        ∧ driverCalls (Aggregate m x po w2).2.trace = driverCalls w2.trace) :=
  crud_checks_connectivity fuel w hc (ReachableByAny_ready w hw) m x y field docs oe en el
    pn po pl

/-- C7, witness: before the first connection, `FindOne` returns `ErrNoMongoConnection`
and the world is untouched. -/
theorem crud_guard_contract_witness :
    ReachableByAny World.init ∧ World.init.client.isConnected = false
      ∧ FindOne 1 ("userGroup", "users") 0 none World.init
          = (Res.ok (false, some GoError.ErrNoMongoConnection), World.init) :=
  ⟨ReachableByAny.start, rfl,
    (crud_guard_contract 0 World.init ReachableByAny.start rfl ("userGroup", "users") 0 0
      "name" [] none (Except.ok 0) (Except.ok []) (0, none) (none, none) (none, none)).1⟩

end MongoDB
